import Mathlib

/-!
Verification of the procedural building-shell generator.

All real-valued quantities of the Python source are modelled as rationals
(`ℚ`); Python's `int(...)` truncation is `pyInt`; Python lists become Lean
lists; the module-level `random` stream becomes an explicit `RNG` state
threaded through every function that draws from it.  Each definition below
mirrors one function of `src/mesh_builder.py`, `src/interiors.py`,
`src/damage.py` or `src/util.py`, keeping the source's names and control
flow.
-/

/-- Python's `int(...)` applied to a float: truncation toward zero. -/
def pyInt (q : ℚ) : ℤ :=
  if 0 ≤ q then ⌊q⌋ else ⌈q⌉

/-- An `Opening` record as appended by `WallSegment.add_opening` in
`src/mesh_builder.py`: a rectangle in the wall's local (along-wall, up)
coordinates plus a kind tag (`"window"` or `"door"`). -/
structure Opening where
  x_start : ℚ
  x_end : ℚ
  z_start : ℚ
  z_end : ℚ
  kind : String
deriving Repr, DecidableEq

/-- The fields of `mesh_builder.WallSegment` that the opening-layout code
reads: the wall's length, its height and its ordered opening list
(`start`, `end`, `base_z` and `normal` never enter `_add_windows_to_wall`,
so the 2D endpoints are projected away to the length). -/
structure WallSeg where
  len : ℚ
  height : ℚ
  openings : List Opening
deriving Repr, DecidableEq

/-- `WallSegment.add_opening`: appends one opening record to the wall. -/
def WallSeg.add_opening (w : WallSeg) (xs xe zs ze : ℚ) (kind : String) : WallSeg :=
  { w with openings := w.openings ++ [⟨xs, xe, zs, ze, kind⟩] }

/-- The window/door overlap test inside
`BuildingShellBuilder._add_windows_to_wall` (src/mesh_builder.py lines
2184-2193): a candidate `[xs,xe]×[zs,ze]` conflicts with an existing
opening when its horizontal span padded by 0.1 overlaps and its vertical
span overlaps. -/
def window_overlaps_existing (openings : List Opening) (xs xe zs ze : ℚ) : Bool :=
  openings.any (fun ex =>
    (!(decide (xe + 0.1 ≤ ex.x_start) || decide (xs - 0.1 ≥ ex.x_end))) &&
    (!(decide (ze ≤ ex.z_start) || decide (zs ≥ ex.z_end))))

/-- One iteration of the window-placement loop of
`_add_windows_to_wall`: compute candidate `i`'s rectangle, skip it when it
conflicts with an existing opening, append it otherwise. -/
def place_window (window_width zs ze edge_margin gap : ℚ) (w : WallSeg) (i : ℕ) : WallSeg :=
  let xs := edge_margin + gap + (i : ℚ) * (window_width + gap)
  let xe := xs + window_width
  if window_overlaps_existing w.openings xs xe zs ze then w
  else w.add_opening xs xe zs ze "window"

/-- `BuildingShellBuilder._add_windows_to_wall` (src/mesh_builder.py lines
2125-2196), as a pure function from the incoming wall segment to the wall
segment with the placed windows appended. -/
def add_windows_to_wall (wall : WallSeg) (count : ℤ)
    (window_width window_height spacing sill_height : ℚ) : WallSeg :=
  if count ≤ 0 then wall else
  let wall_length := wall.len
  let edge_margin := max 0.3 (spacing * 0.5)
  let available_length := wall_length - 2 * edge_margin
  if available_length < window_width then wall else
  let min_spacing : ℚ := 0.3
  let max_windows := max 1 (pyInt ((available_length + min_spacing) / (window_width + min_spacing)))
  let count2 := min count max_windows
  if count2 ≤ 0 then wall else
  let total_window_width := (count2 : ℚ) * window_width
  let remaining_space := available_length - total_window_width
  let gap := if count2 = 1 then remaining_space / 2 else remaining_space / ((count2 : ℚ) + 1)
  let z_start := sill_height
  let z_end := sill_height + window_height
  if z_end > wall.height - 0.2 then
    let z_end2 := wall.height - 0.2
    if z_end2 ≤ z_start then wall
    else (List.range count2.toNat).foldl (place_window window_width z_start z_end2 edge_margin gap) wall
  else (List.range count2.toNat).foldl (place_window window_width z_start z_end edge_margin gap) wall

/-- `calc_window_positions`, the closure inside
`interiors.get_window_positions` (src/interiors.py lines 95-125): the
interior solver's window-position computation along one wall.  The closed
over `window_width` and `window_spacing` become the first two
arguments. -/
def calc_window_positions (window_width window_spacing : ℚ)
    (wall_length : ℚ) (count : ℤ) : List (ℚ × ℚ) :=
  if count ≤ 0 then []
  else
    let edge_margin := max 0.3 (window_spacing * 0.5)
    let available_length := wall_length - 2 * edge_margin
    if available_length < window_width then []
    else
      let min_spacing : ℚ := 0.3
      let max_windows := max 1 (pyInt ((available_length + min_spacing) / (window_width + min_spacing)))
      let count2 := min count max_windows
      if count2 ≤ 0 then []
      else
        let total_win_width := (count2 : ℚ) * window_width
        let remaining := available_length - total_win_width
        let gap := if 1 ≤ count2 then remaining / ((count2 : ℚ) + 1) else remaining / 2
        (List.range count2.toNat).map (fun (i : ℕ) =>
          let x_start := edge_margin + gap + (i : ℚ) * (window_width + gap)
          (x_start, x_start + window_width))

/-! ## Interior layout solver (src/interiors.py) -/

/-- Architectural constants of src/interiors.py lines 32-42. -/
def STAIR_LANDING : ℚ := 1.0
def STAIR_ZONE_WIDTH : ℚ := 1.2
def STAIR_ZONE_DEPTH : ℚ := 3.2
def MIN_ROOM_SIZE : ℚ := 2.5
def MIN_ROOM_AREA : ℚ := 6.0
def MIN_WALL_OFFSET : ℚ := 1.5
def DOOR_WIDTH : ℚ := 0.9
def EXTERIOR_DOOR_WIDTH : ℚ := 1.0
def WALL_CLEARANCE : ℚ := 0.3

/-- A 2D point (the `mathutils.Vector` instances of the interior code all
live at z = 0, so only x and y matter). -/
abbrev Vec2 := ℚ × ℚ

/-- Squared Euclidean length of a 2D vector.  The source compares
`(end - start).length` against nonnegative thresholds; comparisons are
done here on squares, which is equivalent. -/
def Vec2.lengthSq (v : Vec2) : ℚ := v.1 * v.1 + v.2 * v.2

/-- `get_interior_bounds` (src/interiors.py lines 49-61). -/
def get_interior_bounds (width depth wall_thickness : ℚ) : ℚ × ℚ × ℚ × ℚ :=
  (wall_thickness, wall_thickness, width - wall_thickness, depth - wall_thickness)

/-- The four cardinal exterior walls. -/
inductive WallSide where
  | front | back | left | right
deriving Repr, DecidableEq

/-- The output of `get_window_positions`: per exterior wall, the list of
`(start, end)` opening spans along that wall. -/
structure WindowPositions where
  front : List (ℚ × ℚ)
  back : List (ℚ × ℚ)
  left : List (ℚ × ℚ)
  right : List (ℚ × ℚ)
deriving Repr, DecidableEq

/-- Dictionary lookup `window_positions.get(wall, [])`. -/
def WindowPositions.get (wp : WindowPositions) : WallSide → List (ℚ × ℚ)
  | .front => wp.front
  | .back => wp.back
  | .left => wp.left
  | .right => wp.right

/-- `is_position_blocked_by_opening` (src/interiors.py lines 155-172):
a position is blocked when it falls inside some opening span widened by
`WALL_CLEARANCE` on both sides. -/
def is_position_blocked_by_opening (pos : ℚ) (wall : WallSide)
    (window_positions : WindowPositions) : Bool :=
  (window_positions.get wall).any (fun se =>
    decide (se.1 - WALL_CLEARANCE ≤ pos) && decide (pos ≤ se.2 + WALL_CLEARANCE))

/-- `validate_room_size` (src/interiors.py lines 227-246). -/
def validate_room_size (room_width room_depth : ℚ) : Bool :=
  if room_width < MIN_ROOM_SIZE ∨ room_depth < MIN_ROOM_SIZE then false
  else if room_width * room_depth < MIN_ROOM_AREA then false
  else true

/-- `calculate_optimal_divider_position` (src/interiors.py lines 295-326);
`none` plays Python's `None`. -/
def calculate_optimal_divider_position (axis_min axis_max : ℚ)
    (target_r : ℚ := 0.5) (min_room_size : ℚ := MIN_ROOM_SIZE) : Option ℚ :=
  let axis_length := axis_max - axis_min
  if axis_length < min_room_size * 2 then none
  else
    let target_pos := axis_min + axis_length * target_r
    let min_pos := axis_min + min_room_size
    let max_pos := axis_max - min_room_size
    some (max min_pos (min max_pos target_pos))

/-- `validate_and_adjust_cardinal_wall` (src/interiors.py lines 382-445).
Python's `(None, None)` return is `none`; the adjusted endpoint pair is
`some (start, end)`. -/
def validate_and_adjust_cardinal_wall (wall_start wall_stop : Vec2)
    (width depth wall_thickness : ℚ)
    (window_positions : WindowPositions) : Option (Vec2 × Vec2) :=
  let dx := |wall_stop.1 - wall_start.1|
  let dy := |wall_stop.2 - wall_start.2|
  if dx > 0.1 ∧ dy > 0.1 then none
  else
    let b := get_interior_bounds width depth wall_thickness
    let ix_min := b.1
    let iy_min := b.2.1
    let ix_max := b.2.2.1
    let iy_max := b.2.2.2
    if dx > dy then
      let wall_y := (wall_start.2 + wall_stop.2) / 2
      if |wall_start.1 - ix_min| < 0.01 ∧
          is_position_blocked_by_opening wall_y .left window_positions then none
      else if |wall_stop.1 - ix_max| < 0.01 ∧
          is_position_blocked_by_opening wall_y .right window_positions then none
      else some ((wall_start.1, wall_y), (wall_stop.1, wall_y))
    else
      let wall_x := (wall_start.1 + wall_stop.1) / 2
      if |wall_start.2 - iy_min| < 0.01 ∧
          is_position_blocked_by_opening wall_x .front window_positions then none
      else if |wall_stop.2 - iy_max| < 0.01 ∧
          is_position_blocked_by_opening wall_x .back window_positions then none
      else some ((wall_x, wall_start.2), (wall_x, wall_stop.2))

/-- An axis-aligned rectangle, as the stair-zone / floor-opening dicts
with keys `x_min`, `y_min`, `x_max`, `y_max`. -/
structure Rect where
  x_min : ℚ
  y_min : ℚ
  x_max : ℚ
  y_max : ℚ
deriving Repr, DecidableEq

/-- A stair placement keyword.  `get_stair_zone` inspects its `position`
string only through the substring tests `'right' in position`,
`'left' in position` and `'front' in position`; the six keywords here
enumerate the membership patterns of `{front,back}×{right,left,center}`
keywords. -/
inductive StairPosition where
  | back_right | back_left | back_center
  | front_right | front_left | front_center
deriving Repr, DecidableEq

/-- Whether `'right' in position`. -/
def StairPosition.hasRight : StairPosition → Bool
  | .back_right | .front_right => true
  | _ => false

/-- Whether `'left' in position`. -/
def StairPosition.hasLeft : StairPosition → Bool
  | .back_left | .front_left => true
  | _ => false

/-- Whether `'front' in position`. -/
def StairPosition.hasFront : StairPosition → Bool
  | .front_right | .front_left | .front_center => true
  | _ => false

/-- `get_stair_zone` (src/interiors.py lines 448-496). -/
def get_stair_zone (width depth wall_thickness : ℚ)
    (position : StairPosition := .back_right) : Rect :=
  let b := get_interior_bounds width depth wall_thickness
  let ix_min := b.1
  let iy_min := b.2.1
  let ix_max := b.2.2.1
  let iy_max := b.2.2.2
  let interior_width := ix_max - ix_min
  let interior_depth := iy_max - iy_min
  let zone_width := min STAIR_ZONE_WIDTH (interior_width * 0.25)
  let zone_depth := min STAIR_ZONE_DEPTH (interior_depth * 0.4)
  let wall_margin : ℚ := 0.3
  let xs : ℚ × ℚ :=
    if position.hasRight then
      let x_max := ix_max - wall_margin
      (x_max - zone_width, x_max)
    else if position.hasLeft then
      let x_min := ix_min + wall_margin
      (x_min, x_min + zone_width)
    else
      let x_min := ix_min + (interior_width - zone_width) / 2
      (x_min, x_min + zone_width)
  let ys : ℚ × ℚ :=
    if position.hasFront then
      let y_min := iy_min + wall_margin
      (y_min, y_min + zone_depth)
    else
      let y_max := iy_max - wall_margin
      (y_max - zone_depth, y_max)
  { x_min := xs.1, y_min := ys.1, x_max := xs.2, y_max := ys.2 }

/-- `get_floor_opening` (src/interiors.py lines 499-516): the floor-slab
cutout, the stair zone shrunk by a 0.1 framing margin. -/
def get_floor_opening (width depth wall_thickness : ℚ)
    (stair_position : StairPosition := .back_right) : Rect :=
  let stair_zone := get_stair_zone width depth wall_thickness stair_position
  let margin : ℚ := 0.1
  { x_min := stair_zone.x_min + margin
    y_min := stair_zone.y_min + margin
    x_max := stair_zone.x_max - margin
    y_max := stair_zone.y_max - margin }

/-- An interior wall definition dict (`'start'`, `'end'`, `'height'`,
`'thickness'`, `'openings'`); Python's `'end'` key is field `stop`. -/
structure WallDef where
  start : Vec2
  stop : Vec2
  height : ℚ
  thickness : ℚ
deriving Repr, DecidableEq

/-- `walls_overlap_zone` (src/interiors.py lines 519-531). -/
def walls_overlap_zone (wall_start wall_stop : Vec2) (zone : Rect) : Bool :=
  let wall_x_min := min wall_start.1 wall_stop.1
  let wall_x_max := max wall_start.1 wall_stop.1
  let wall_y_min := min wall_start.2 wall_stop.2
  let wall_y_max := max wall_start.2 wall_stop.2
  decide (wall_x_min < zone.x_max) && decide (wall_x_max > zone.x_min) &&
  decide (wall_y_min < zone.y_max) && decide (wall_y_max > zone.y_min)

/-- `adjust_wall_for_stair_zone` (src/interiors.py lines 534-595):
shorten or split a wall that crosses the stair zone; pieces shorter than
0.3 are dropped (`length > 0.3` is compared on squares). -/
def adjust_wall_for_stair_zone (wall_def : WallDef) (stair_zone : Rect) : List WallDef :=
  let s := wall_def.start
  let e := wall_def.stop
  if ¬ walls_overlap_zone s e stair_zone then [wall_def]
  else
    let is_horizontal := |e.1 - s.1| > |e.2 - s.2|
    if is_horizontal then
      let wall_y := s.2
      if stair_zone.y_min ≤ wall_y ∧ wall_y ≤ stair_zone.y_max then
        (if s.1 < stair_zone.x_min then
          let w := { wall_def with stop := (stair_zone.x_min, wall_y) }
          if Vec2.lengthSq (w.stop.1 - w.start.1, w.stop.2 - w.start.2) > 0.09 then [w] else []
        else []) ++
        (if e.1 > stair_zone.x_max then
          let w := { wall_def with start := (stair_zone.x_max, wall_y) }
          if Vec2.lengthSq (w.stop.1 - w.start.1, w.stop.2 - w.start.2) > 0.09 then [w] else []
        else [])
      else [wall_def]
    else
      let wall_x := s.1
      if stair_zone.x_min ≤ wall_x ∧ wall_x ≤ stair_zone.x_max then
        (if s.2 < stair_zone.y_min then
          let w := { wall_def with stop := (wall_x, stair_zone.y_min) }
          if Vec2.lengthSq (w.stop.1 - w.start.1, w.stop.2 - w.start.2) > 0.09 then [w] else []
        else []) ++
        (if e.2 > stair_zone.y_max then
          let w := { wall_def with start := (wall_x, stair_zone.y_max) }
          if Vec2.lengthSq (w.stop.1 - w.start.1, w.stop.2 - w.start.2) > 0.09 then [w] else []
        else [])
      else [wall_def]

/-! ## Building profiles (src/interiors.py lines 598-1242) -/

/-- The `building_profile` selector, keys of the `BUILDING_PROFILES`
registry. -/
inductive ProfileName where
  | NONE | STOREFRONT | WAREHOUSE | RESIDENTIAL | BAR
deriving Repr, DecidableEq

/-- The parameter-dict fields read by the interior layout code, with the
source's `params.get` defaults. -/
structure Params where
  width : ℚ := 8
  depth : ℚ := 6
  floors : ℕ := 1
  floor_height : ℚ := 3.5
  wall_thickness : ℚ := 0.25
  floor_slabs : Bool := true
  building_profile : ProfileName := .NONE
  exterior_stairs : Bool := false
deriving Repr, DecidableEq

/-- A `Room` record as emitted by the profiles: name, bounds rectangle and
type tag. -/
structure Room where
  name : String
  x_min : ℚ
  y_min : ℚ
  x_max : ℚ
  y_max : ℚ
  rtype : String
deriving Repr, DecidableEq

/-- An exterior stair door record (`'wall'`, `'position'`, `'width'`,
`'height'`). -/
structure ExtDoor where
  wall : WallSide
  position : ℚ
  width : ℚ
  height : ℚ
deriving Repr, DecidableEq

/-- A profile layout: the `{'rooms': ..., 'walls': ..., 'exterior_door': ...}`
dict (upper-floor layouts have no `exterior_door` key; it is `none`
there). -/
structure Layout where
  rooms : List Room
  walls : List WallDef
  exterior_door : Option ExtDoor := none
deriving Repr, DecidableEq

/-- The `stair_position` class attribute of each registered profile
class. -/
def profile_stair_position : ProfileName → StairPosition
  | .NONE => .back_right
  | .STOREFRONT => .back_right
  | .WAREHOUSE => .back_left
  | .RESIDENTIAL => .back_center
  | .BAR => .back_left

/-- `BuildingProfile.get_stair_zone` (src/interiors.py lines 609-613),
dispatched on the profile's `stair_position`. -/
def profile_get_stair_zone (p : ProfileName) (width depth : ℚ) (params : Params) : Rect :=
  get_stair_zone width depth params.wall_thickness (profile_stair_position p)

/-- `BuildingProfile.get_floor_opening` (src/interiors.py lines 615-619). -/
def profile_get_floor_opening (p : ProfileName) (width depth : ℚ) (params : Params) : Rect :=
  get_floor_opening width depth params.wall_thickness (profile_stair_position p)

/-- `BuildingProfile.needs_exterior_stair_door` (src/interiors.py lines
631-634). -/
def needs_exterior_stair_door (params : Params) : Bool :=
  params.exterior_stairs

/-- `StorefrontProfile.get_exterior_stair_door`: the base-class default,
a door at 80% along the back wall. -/
def StorefrontProfile.get_exterior_stair_door (_width _depth : ℚ) (_params : Params) : ExtDoor :=
  { wall := .back, position := 0.8, width := EXTERIOR_DOOR_WIDTH, height := 2.4 }

/-- `BarProfile.get_exterior_stair_door` (src/interiors.py lines
1225-1232). -/
def BarProfile.get_exterior_stair_door (_width _depth : ℚ) (_params : Params) : ExtDoor :=
  { wall := .back, position := 0.2, width := EXTERIOR_DOOR_WIDTH, height := 2.4 }

/-- `StorefrontProfile.get_ground_floor_layout` (src/interiors.py lines
667-754): front retail space split from a back room, with a doored
divider wall that avoids the stair zone. -/
def StorefrontProfile.get_ground_floor_layout (width depth : ℚ) (params : Params) : Layout :=
  let wall_thickness := params.wall_thickness
  let floor_height := params.floor_height
  let floors := params.floors
  let b := get_interior_bounds width depth wall_thickness
  let ix_min := b.1
  let iy_min := b.2.1
  let ix_max := b.2.2.1
  let iy_max := b.2.2.2
  let interior_width := ix_max - ix_min
  let interior_depth := iy_max - iy_min
  let exterior_door : Option ExtDoor :=
    if needs_exterior_stair_door params then
      some (StorefrontProfile.get_exterior_stair_door width depth params)
    else none
  let open_fallback : Layout :=
    { rooms := [⟨"open_retail", ix_min, iy_min, ix_max, iy_max, "retail"⟩],
      walls := [], exterior_door := exterior_door }
  if ¬ (validate_room_size interior_width interior_depth = true) then open_fallback
  else
    let stair_zone : Option Rect :=
      if floors > 1 then some (profile_get_stair_zone .STOREFRONT width depth params) else none
    let target_back_depth0 :=
      if floors > 1 then interior_depth * 0.35 else interior_depth * 0.25
    let target_back_depth :=
      if floors > 1 then max target_back_depth0 (STAIR_ZONE_DEPTH + 1.0) else target_back_depth0
    match calculate_optimal_divider_position iy_min iy_max
        (1.0 - target_back_depth / interior_depth) with
    | none => open_fallback
    | some divider_y =>
      let front_room_depth := divider_y - iy_min
      let back_room_depth := iy_max - divider_y
      if ¬ (validate_room_size interior_width front_room_depth = true) ∨
          ¬ (validate_room_size interior_width back_room_depth = true) then open_fallback
      else
        let rooms : List Room :=
          [⟨"retail_front", ix_min, iy_min, ix_max, divider_y, "retail"⟩,
           ⟨"back_room", ix_min, divider_y, ix_max, iy_max, "storage"⟩]
        let door_x := ix_min + interior_width * 0.3
        let walls_left : List WallDef :=
          if door_x > ix_min + MIN_WALL_OFFSET then
            [{ start := (ix_min, divider_y), stop := (door_x, divider_y),
               height := floor_height, thickness := wall_thickness }]
          else []
        let right_wall : WallDef :=
          { start := (door_x + DOOR_WIDTH, divider_y), stop := (ix_max, divider_y),
            height := floor_height, thickness := wall_thickness }
        let walls_right : List WallDef :=
          match stair_zone with
          | some z => adjust_wall_for_stair_zone right_wall z
          | none => [right_wall]
        { rooms := rooms, walls := walls_left ++ walls_right, exterior_door := exterior_door }

/-- `StorefrontProfile.get_upper_floor_layout` (src/interiors.py lines
756-828): a living room and a bedroom split by a doored divider wall kept
clear of the stair zone. -/
def StorefrontProfile.get_upper_floor_layout (width depth : ℚ) (floor_idx : ℕ)
    (params : Params) : Layout :=
  let wall_thickness := params.wall_thickness
  let floor_height := params.floor_height
  let b := get_interior_bounds width depth wall_thickness
  let ix_min := b.1
  let iy_min := b.2.1
  let ix_max := b.2.2.1
  let iy_max := b.2.2.2
  let interior_width := ix_max - ix_min
  let interior_depth := iy_max - iy_min
  let stair_zone := profile_get_stair_zone .STOREFRONT width depth params
  let empty : Layout := { rooms := [], walls := [] }
  if ¬ (validate_room_size interior_width interior_depth = true) then empty
  else if interior_width > MIN_ROOM_SIZE * 2 + 1.0 then
    let target_r : ℚ := if stair_zone.x_min > ix_min + MIN_ROOM_SIZE then 0.6 else 0.5
    match calculate_optimal_divider_position ix_min ix_max target_r with
    | none => empty
    | some divider_x =>
      let left_room_width := divider_x - ix_min
      let right_room_width := ix_max - divider_x
      if ¬ (validate_room_size left_room_width interior_depth = true) ∨
          ¬ (validate_room_size right_room_width interior_depth = true) then empty
      else
        let rooms : List Room :=
          [⟨"living_" ++ toString floor_idx, ix_min, iy_min, divider_x, iy_max, "living"⟩,
           ⟨"bedroom_" ++ toString floor_idx, divider_x, iy_min, ix_max, iy_max, "bedroom"⟩]
        let door_y0 := iy_min + interior_depth * 0.4
        let door_y1 := if door_y0 - iy_min < MIN_WALL_OFFSET then iy_min + MIN_WALL_OFFSET else door_y0
        let door_y := if iy_max - (door_y1 + DOOR_WIDTH) < MIN_WALL_OFFSET then
            iy_max - DOOR_WIDTH - MIN_WALL_OFFSET else door_y1
        let wall_bottom : WallDef :=
          { start := (divider_x, iy_min), stop := (divider_x, door_y),
            height := floor_height, thickness := wall_thickness }
        let wall_top : WallDef :=
          { start := (divider_x, door_y + DOOR_WIDTH), stop := (divider_x, iy_max),
            height := floor_height, thickness := wall_thickness }
        { rooms := rooms,
          walls := adjust_wall_for_stair_zone wall_bottom stair_zone ++
                   adjust_wall_for_stair_zone wall_top stair_zone }
  else empty

/-- `BarProfile.get_ground_floor_layout` (src/interiors.py lines
1114-1178): seating in front, bar area behind, a back room beside the
stairs on multi-floor builds; no room-size validation is performed. -/
def BarProfile.get_ground_floor_layout (width depth : ℚ) (params : Params) : Layout :=
  let wall_thickness := params.wall_thickness
  let floor_height := params.floor_height
  let floors := params.floors
  let b := get_interior_bounds width depth wall_thickness
  let ix_min := b.1
  let iy_min := b.2.1
  let ix_max := b.2.2.1
  let iy_max := b.2.2.2
  let interior_width := ix_max - ix_min
  let interior_depth := iy_max - iy_min
  let stair_zone : Option Rect :=
    if floors > 1 then some (profile_get_stair_zone .BAR width depth params) else none
  let bar_y := iy_min + interior_depth * 0.5
  let back_room_x :=
    match stair_zone with
    | some z => z.x_max + 0.5
    | none => ix_min + interior_width * 0.3
  let rooms : List Room :=
    [⟨"seating", ix_min, iy_min, ix_max, bar_y, "seating"⟩,
     ⟨"bar_area", back_room_x, bar_y, ix_max, iy_max, "bar"⟩] ++
    (match stair_zone with
     | some _ => [⟨"back_room", ix_min, bar_y, back_room_x, iy_max, "storage"⟩]
     | none => [])
  let opening_width := interior_width * 0.5
  let opening_start := ix_min + (interior_width - opening_width) / 2
  let walls1 : List WallDef :=
    if opening_start > ix_min + 0.3 then
      [{ start := (ix_min, bar_y), stop := (opening_start, bar_y),
         height := floor_height, thickness := wall_thickness }]
    else []
  let walls2 : List WallDef :=
    if opening_start + opening_width < ix_max - 0.3 then
      [{ start := (opening_start + opening_width, bar_y), stop := (ix_max, bar_y),
         height := floor_height, thickness := wall_thickness }]
    else []
  let walls3 : List WallDef :=
    match stair_zone with
    | some z =>
      adjust_wall_for_stair_zone
        { start := (back_room_x, bar_y + DOOR_WIDTH), stop := (back_room_x, iy_max),
          height := floor_height, thickness := wall_thickness } z
    | none => []
  let exterior_door : Option ExtDoor :=
    if needs_exterior_stair_door params then
      some (BarProfile.get_exterior_stair_door width depth params)
    else none
  { rooms := rooms, walls := walls1 ++ walls2 ++ walls3, exterior_door := exterior_door }

/-- `WarehouseProfile.get_exterior_stair_door` (src/interiors.py lines
903-911): a door at 70% along the left wall. -/
def WarehouseProfile.get_exterior_stair_door (_width _depth : ℚ) (_params : Params) : ExtDoor :=
  { wall := .left, position := 0.7, width := EXTERIOR_DOOR_WIDTH, height := 2.4 }

/-- `WarehouseProfile.get_ground_floor_layout` (src/interiors.py lines
843-896): an office split from the warehouse floor in the front-left
corner when the size guards pass, otherwise one open `warehouse_floor`
room. -/
def WarehouseProfile.get_ground_floor_layout (width depth : ℚ) (params : Params) : Layout :=
  let wall_thickness := params.wall_thickness
  let floor_height := params.floor_height
  let floors := params.floors
  let b := get_interior_bounds width depth wall_thickness
  let ix_min := b.1
  let iy_min := b.2.1
  let ix_max := b.2.2.1
  let iy_max := b.2.2.2
  let interior_width := ix_max - ix_min
  let interior_depth := iy_max - iy_min
  let _stair_zone : Option Rect :=
    if floors > 1 then some (profile_get_stair_zone .WAREHOUSE width depth params) else none
  let min_office_size := max MIN_ROOM_SIZE 2.5
  let remaining_width := interior_width - min_office_size
  let _remaining_depth := interior_depth - min_office_size
  let exterior_door : Option ExtDoor :=
    if needs_exterior_stair_door params then
      some (WarehouseProfile.get_exterior_stair_door width depth params)
    else none
  if interior_width > min_office_size * 2 + 1.0 ∧
      interior_depth > min_office_size * 2 + 1.0 ∧
      validate_room_size remaining_width interior_depth = true then
    let office_width := max min_office_size (min 3.5 (interior_width * 0.3))
    let office_depth := max min_office_size (min 3.5 (interior_depth * 0.3))
    let office_x_max := ix_min + office_width
    let office_y_max := iy_min + office_depth
    { rooms := [⟨"warehouse_floor", office_x_max, iy_min, ix_max, iy_max, "warehouse"⟩,
                ⟨"office", ix_min, iy_min, office_x_max, office_y_max, "office"⟩],
      walls := [{ start := (office_x_max, iy_min),
                  stop := (office_x_max, office_y_max - DOOR_WIDTH),
                  height := floor_height, thickness := wall_thickness },
                { start := (ix_min, office_y_max), stop := (office_x_max, office_y_max),
                  height := floor_height, thickness := wall_thickness }],
      exterior_door := exterior_door }
  else
    { rooms := [⟨"warehouse_floor", ix_min, iy_min, ix_max, iy_max, "warehouse"⟩],
      walls := [], exterior_door := exterior_door }

/-- `ResidentialProfile.get_exterior_stair_door` (src/interiors.py lines
1093-1100): a door at the centre of the back wall. -/
def ResidentialProfile.get_exterior_stair_door (_width _depth : ℚ) (_params : Params) : ExtDoor :=
  { wall := .back, position := 0.5, width := EXTERIOR_DOOR_WIDTH, height := 2.4 }

/-- The `hallway_width` class attribute of `ResidentialProfile`
(src/interiors.py line 924). -/
def ResidentialProfile.hallway_width : ℚ := 1.4

/-- The hallway's far end, Python's conditional expression
`stair_zone['y_min'] if stair_zone else iy_max` (src/interiors.py line
969). -/
def ResidentialProfile.hallway_y_max_of (stair_zone : Option Rect) (iy_max : ℚ) : ℚ :=
  match stair_zone with
  | some z => z.y_min
  | none => iy_max

/-- The hallway-wall and cross-wall loops of
`ResidentialProfile._generate_floor_layout` (src/interiors.py lines
1015-1085), parameterised by the layout quantities they read: per room
row, wall segments on both hallway sides around a centred door gap, then
cross walls between stacked apartments. -/
def ResidentialProfile.floor_walls (ix_min ix_max iy_min hallway_x_left
    hallway_x_right hallway_y_max room_depth : ℚ) (num_rooms : ℤ)
    (floor_height wall_thickness : ℚ) : List WallDef :=
  (List.range num_rooms.toNat).flatMap (fun (i : ℕ) =>
    let y_start := iy_min + (i : ℚ) * room_depth
    let y_end := min (y_start + room_depth) hallway_y_max
    let door_y := y_start + (y_end - y_start) * 0.5 - DOOR_WIDTH / 2
    let wall_before_door := door_y - y_start
    let wall_after_door := y_end - (door_y + DOOR_WIDTH)
    (if wall_before_door > MIN_WALL_OFFSET then
      [{ start := (hallway_x_left, y_start), stop := (hallway_x_left, door_y),
         height := floor_height, thickness := wall_thickness }]
     else []) ++
    (if wall_after_door > MIN_WALL_OFFSET then
      [{ start := (hallway_x_left, door_y + DOOR_WIDTH),
         stop := (hallway_x_left, y_end),
         height := floor_height, thickness := wall_thickness }]
     else []) ++
    (if wall_before_door > MIN_WALL_OFFSET then
      [{ start := (hallway_x_right, y_start), stop := (hallway_x_right, door_y),
         height := floor_height, thickness := wall_thickness }]
     else []) ++
    (if wall_after_door > MIN_WALL_OFFSET then
      [{ start := (hallway_x_right, door_y + DOOR_WIDTH),
         stop := (hallway_x_right, y_end),
         height := floor_height, thickness := wall_thickness }]
     else [])) ++
  (if num_rooms > 1 then
    let mid_y := iy_min + room_depth
    if mid_y < hallway_y_max - MIN_WALL_OFFSET then
      (if hallway_x_left - ix_min - DOOR_WIDTH > MIN_WALL_OFFSET then
        [{ start := (ix_min, mid_y), stop := (hallway_x_left - DOOR_WIDTH, mid_y),
           height := floor_height, thickness := wall_thickness }]
       else []) ++
      (if ix_max - hallway_x_right - DOOR_WIDTH > MIN_WALL_OFFSET then
        [{ start := (hallway_x_right + DOOR_WIDTH, mid_y), stop := (ix_max, mid_y),
           height := floor_height, thickness := wall_thickness }]
       else [])
    else []
   else [])

/-- `ResidentialProfile._generate_floor_layout` (src/interiors.py lines
935-1091): a central hallway flanked by apartment rooms, each appended
only when it fits under the stair zone and passes `validate_room_size`;
hallway walls carry centred door gaps and a cross wall separates stacked
apartments (the wall loops are `ResidentialProfile.floor_walls`). -/
def ResidentialProfile.generate_floor_layout (width depth : ℚ) (floor_idx : ℕ)
    (params : Params) : Layout :=
  let wall_thickness := params.wall_thickness
  let floor_height := params.floor_height
  let floors := params.floors
  let b := get_interior_bounds width depth wall_thickness
  let ix_min := b.1
  let iy_min := b.2.1
  let ix_max := b.2.2.1
  let iy_max := b.2.2.2
  let interior_width := ix_max - ix_min
  let interior_depth := iy_max - iy_min
  let stair_zone : Option Rect :=
    if floors > 1 then some (profile_get_stair_zone .RESIDENTIAL width depth params) else none
  let min_room_width := MIN_ROOM_SIZE
  let min_hallway_depth := MIN_ROOM_SIZE
  let required_width := min_room_width * 2 + ResidentialProfile.hallway_width
  let empty : Layout := { rooms := [], walls := [] }
  if interior_width < required_width ∨ interior_depth < min_hallway_depth then empty
  else
    let room_width_each_side := (interior_width - ResidentialProfile.hallway_width) / 2
    if room_width_each_side < MIN_ROOM_SIZE then empty
    else
      let hallway_x_left := ix_min + room_width_each_side
      let hallway_x_right := hallway_x_left + ResidentialProfile.hallway_width
      let hallway_y_max := ResidentialProfile.hallway_y_max_of stair_zone iy_max
      let hallway_depth := hallway_y_max - iy_min
      if hallway_depth < MIN_ROOM_SIZE then empty
      else
        let hallway_room : Room :=
          ⟨"hallway_" ++ toString floor_idx, hallway_x_left, iy_min, hallway_x_right,
            hallway_y_max, "hallway"⟩
        let num_rooms0 : ℤ := min (max 1 (pyInt (hallway_depth / MIN_ROOM_SIZE))) 2
        let room_depth0 := hallway_depth / (num_rooms0 : ℚ)
        let num_rooms : ℤ :=
          if ¬ (validate_room_size room_width_each_side room_depth0 = true) then 1
          else num_rooms0
        let room_depth :=
          if ¬ (validate_room_size room_width_each_side room_depth0 = true) then hallway_depth
          else room_depth0
        let left_rooms : List Room :=
          (List.range num_rooms.toNat).filterMap (fun (i : ℕ) =>
            let y_start := iy_min + (i : ℚ) * room_depth
            let y_end := y_start + room_depth
            if y_end ≤ hallway_y_max + 0.01 ∧
                validate_room_size room_width_each_side room_depth = true then
              some ⟨"apt_L" ++ toString i ++ "_" ++ toString floor_idx,
                ix_min, y_start, hallway_x_left, y_end, "apartment"⟩
            else none)
        let right_rooms : List Room :=
          (List.range num_rooms.toNat).filterMap (fun (i : ℕ) =>
            let y_start := iy_min + (i : ℚ) * room_depth
            let y_end := y_start + room_depth
            if y_end ≤ hallway_y_max + 0.01 ∧
                validate_room_size room_width_each_side room_depth = true then
              some ⟨"apt_R" ++ toString i ++ "_" ++ toString floor_idx,
                hallway_x_right, y_start, ix_max, y_end, "apartment"⟩
            else none)
        let exterior_door : Option ExtDoor :=
          if floor_idx = 0 ∧ needs_exterior_stair_door params then
            some (ResidentialProfile.get_exterior_stair_door width depth params)
          else none
        { rooms := hallway_room :: (left_rooms ++ right_rooms),
          walls := ResidentialProfile.floor_walls ix_min ix_max iy_min
            hallway_x_left hallway_x_right hallway_y_max room_depth num_rooms
            floor_height wall_thickness,
          exterior_door := exterior_door }

/-- `ResidentialProfile.get_ground_floor_layout` (src/interiors.py lines
926-928): delegates to `_generate_floor_layout` with floor index 0. -/
def ResidentialProfile.get_ground_floor_layout (width depth : ℚ) (params : Params) : Layout :=
  ResidentialProfile.generate_floor_layout width depth 0 params

/-- `ResidentialProfile.get_upper_floor_layout` (src/interiors.py lines
930-932): delegates to `_generate_floor_layout`. -/
def ResidentialProfile.get_upper_floor_layout (width depth : ℚ) (floor_idx : ℕ)
    (params : Params) : Layout :=
  ResidentialProfile.generate_floor_layout width depth floor_idx params

/-- `get_floor_slab_opening` (src/interiors.py lines 1594-1615): the
stair cutout handed to every floor slab, `none` when slabs are disabled
or the building is single-storey. -/
def get_floor_slab_opening (params : Params) : Option Rect :=
  if ¬ (params.floor_slabs = true) then none
  else if params.floors ≤ 1 then none
  else some (profile_get_floor_opening params.building_profile params.width params.depth params)

/-- The stair opening used while building the slab of floor `floor_idx`:
`BuildingShellBuilder.build` calls `self._get_stair_opening()` inside the
per-floor loop (src/mesh_builder.py lines 864-885), which forwards to
`get_floor_slab_opening(self.params)`; the floor index never enters the
computation. -/
def stair_opening_at_floor (params : Params) (_floor_idx : ℕ) : Option Rect :=
  get_floor_slab_opening params

/-! ## Pseudorandom stream (src/util.py lines 10-32)

The source draws from Python's module-level `random` stream, reseeded via
`util.seed_random`.  The stream is modelled as an explicit state: a seed
and a position counter, with a fixed deterministic value function in
`[0,1)` standing in for the Mersenne Twister (the claims proved below
depend only on draws being a pure function of the seeded state and on
their sequential order, never on the distribution of values). -/

/-- The state of the module-level pseudorandom stream. -/
structure RNG where
  seed : ℕ
  counter : ℕ
deriving Repr, DecidableEq

/-- `util.seed_random`: reset the stream to the start of seed `seed`. -/
def seed_random (seed : ℕ) : RNG := ⟨seed, 0⟩

/-- Advance the stream by one draw. -/
def RNG.next (r : RNG) : RNG := ⟨r.seed, r.counter + 1⟩

/-- The current draw's value in `[0,1)`: a fixed linear-congruential hash
of seed and position. -/
def RNG.unit (r : RNG) : ℚ :=
  (((r.seed * 1103515245 + r.counter * 12345 + 12345) % 2147483648 : ℕ) : ℚ) / 2147483648

/-- `util.random_float`: `random.uniform(lo, hi) = lo + (hi-lo)*random()`. -/
def random_float (lo hi : ℚ) (r : RNG) : ℚ × RNG :=
  (lo + (hi - lo) * r.unit, r.next)

/-- `util.random_bool`: `random.random() < probability`. -/
def random_bool (probability : ℚ) (r : RNG) : Bool × RNG :=
  (decide (r.unit < probability), r.next)

/-- A list comprehension of `count` draws of `random_float lo hi`, in
stream order. -/
def draw_floats (lo hi : ℚ) : ℕ → RNG → List ℚ × RNG
  | 0, r => ([], r)
  | n + 1, r =>
    let head := random_float lo hi r
    let rest := draw_floats lo hi n head.2
    (head.1 :: rest.1, rest.2)

/-! ## Damage profile generator (src/damage.py) -/

/-- One corner-collapse zone
`(zone_wall, zone_start, zone_end, zone_intensity)` from
`corner_collapse_zones`. -/
structure CollapseZone where
  wall : WallSide
  zstart : ℚ
  zend : ℚ
  intensity : ℚ
deriving Repr, DecidableEq

/-- The inner zone loop of `generate_damage_profile` (src/damage.py lines
83-89): fold the corner-collapse zones into the point's collapse
multiplier. -/
def collapse_multiplier_at (zones : List CollapseZone) (wall_name : WallSide)
    (pos : ℚ) : ℚ :=
  zones.foldl (fun cm z =>
    if z.wall = wall_name ∧ z.zstart ≤ pos ∧ pos ≤ z.zend then
      let zone_center := (z.zstart + z.zend) / 2
      let zone_dist := |pos - zone_center| / ((z.zend - z.zstart) / 2 + 0.01)
      let zone_factor := 1.0 - zone_dist * 0.5
      max cm (1.0 + (z.intensity - 1.0) * zone_factor)
    else cm) 1.0

/-- The sample-count computation of `generate_damage_profile`
(src/damage.py lines 75-76): `base_points = max(3, int(wall_length/0.8))`
then `num_points = max(3, int(base_points * resolution))`. -/
def damage_num_points (wall_length resolution : ℚ) : ℕ :=
  let base_points := max 3 (pyInt (wall_length / 0.8))
  (max 3 (pyInt ((base_points : ℚ) * resolution))).toNat

/-- The per-point sampling loop of `generate_damage_profile`
(src/damage.py lines 80-98) for one wall: point `i` sits at
`(i/num_points)·wall_length` and keeps
`clamp(total_height − height_loss, absolute_min, total_height)`. -/
def sample_wall_profile (wall_name : WallSide) (wall_length total_height : ℚ)
    (base_damage_depth variance_range absolute_min wall_multiplier : ℚ)
    (zones : List CollapseZone) (random_offsets : List ℚ)
    (num_points : ℕ) : List (ℚ × ℚ) :=
  (List.range (num_points + 1)).map (fun (i : ℕ) =>
    let pos := ((i : ℚ) / (num_points : ℚ)) * wall_length
    let collapse_multiplier := collapse_multiplier_at zones wall_name pos
    let base_loss := base_damage_depth * wall_multiplier * collapse_multiplier
    let variance_offset := (random_offsets.getD i 0 - 0.5) * variance_range * wall_multiplier
    let height_loss := max 0 (base_loss + variance_offset)
    let height := max absolute_min (min total_height (total_height - height_loss))
    (pos, height))

/-- The result dict of `generate_damage_profile`: a sample list per wall
plus `min_height` and `intact_height`. -/
structure DamageProfiles where
  front : List (ℚ × ℚ)
  back : List (ℚ × ℚ)
  left : List (ℚ × ℚ)
  right : List (ℚ × ℚ)
  min_height : ℚ
  intact_height : ℚ
deriving Repr, DecidableEq

/-- Project a wall's sample list out of the result. -/
def DamageProfiles.wall (p : DamageProfiles) : WallSide → List (ℚ × ℚ)
  | .front => p.front
  | .back => p.back
  | .left => p.left
  | .right => p.right

/-- The values `generate_damage_profile` obtains from the random stream:
the per-wall collapse intensity multipliers, the corner-collapse zones,
and the per-wall offset lists (one offset per sample point). -/
structure DamageRandomness where
  mult_front : ℚ
  mult_back : ℚ
  mult_left : ℚ
  mult_right : ℚ
  zones : List CollapseZone
  offs_front : List ℚ
  offs_back : List ℚ
  offs_left : List ℚ
  offs_right : List ℚ
deriving Repr, DecidableEq

/-- `wall_collapse_intensity[wall_name]`. -/
def DamageRandomness.mult (d : DamageRandomness) : WallSide → ℚ
  | .front => d.mult_front
  | .back => d.mult_back
  | .left => d.mult_left
  | .right => d.mult_right

/-- The `random_offsets` list drawn for one wall. -/
def DamageRandomness.offs (d : DamageRandomness) : WallSide → List ℚ
  | .front => d.offs_front
  | .back => d.offs_back
  | .left => d.offs_left
  | .right => d.offs_right

/-- The draw phase of `generate_damage_profile` (src/damage.py lines
40-78), in source stream order: four wall-collapse booleans, the
conditional collapse-intensity floats, four corner-collapse booleans, two
zone-intensity floats per triggered corner, then one offset per sample
point for each wall in the order front, back, left, right.  (In the
source the offset draws for a wall happen just before that wall's sample
loop; the sample loops draw nothing, so pulling all draws ahead of all
sampling leaves both the stream and every drawn value unchanged.) -/
def draw_damage_randomness (width depth damage_amount resolution : ℚ)
    (rng : RNG) : DamageRandomness × RNG :=
  let tf := random_bool (damage_amount * 0.4) rng
    let tb := random_bool (damage_amount * 0.4) tf.2
    let tl := random_bool (damage_amount * 0.35) tb.2
    let tr := random_bool (damage_amount * 0.35) tl.2
    let jf := if tf.1 then random_float 1.3 2.0 tr.2 else (1.0, tr.2)
    let jb := if tb.1 then random_float 1.3 2.0 jf.2 else (1.0, jf.2)
    let jl := if tl.1 then random_float 1.3 2.0 jb.2 else (1.0, jb.2)
    let jr := if tr.1 then random_float 1.3 2.0 jl.2 else (1.0, jl.2)
    let k0 := random_bool (damage_amount * 0.25) jr.2
    let k1 := random_bool (damage_amount * 0.25) k0.2
    let k2 := random_bool (damage_amount * 0.25) k1.2
    let k3 := random_bool (damage_amount * 0.25) k2.2
    let z0 : List CollapseZone × RNG :=
      if k0.1 then
        let a := random_float 1.5 2.5 k3.2
        let b := random_float 1.5 2.5 a.2
        ([⟨.front, 0, width * 0.3, a.1⟩, ⟨.left, 0, depth * 0.3, b.1⟩], b.2)
      else ([], k3.2)
    let z1 : List CollapseZone × RNG :=
      if k1.1 then
        let a := random_float 1.5 2.5 z0.2
        let b := random_float 1.5 2.5 a.2
        ([⟨.front, width * 0.7, width, a.1⟩, ⟨.right, 0, depth * 0.3, b.1⟩], b.2)
      else ([], z0.2)
    let z2 : List CollapseZone × RNG :=
      if k2.1 then
        let a := random_float 1.5 2.5 z1.2
        let b := random_float 1.5 2.5 a.2
        ([⟨.back, width * 0.7, width, a.1⟩, ⟨.left, depth * 0.7, depth, b.1⟩], b.2)
      else ([], z1.2)
    let z3 : List CollapseZone × RNG :=
      if k3.1 then
        let a := random_float 1.5 2.5 z2.2
        let b := random_float 1.5 2.5 a.2
        ([⟨.back, 0, width * 0.3, a.1⟩, ⟨.right, depth * 0.7, depth, b.1⟩], b.2)
      else ([], z2.2)
    let zones := z0.1 ++ z1.1 ++ z2.1 ++ z3.1
    let of_f := draw_floats 0 1 (damage_num_points width resolution + 1) z3.2
    let of_b := draw_floats 0 1 (damage_num_points width resolution + 1) of_f.2
    let of_l := draw_floats 0 1 (damage_num_points depth resolution + 1) of_b.2
    let of_r := draw_floats 0 1 (damage_num_points depth resolution + 1) of_l.2
    ({ mult_front := jf.1, mult_back := jb.1, mult_left := jl.1, mult_right := jr.1,
       zones := zones,
       offs_front := of_f.1, offs_back := of_b.1, offs_left := of_l.1,
       offs_right := of_r.1 }, of_r.2)

/-- `generate_damage_profile` (src/damage.py lines 11-106), with the
module-level random stream made an explicit input/output: seed the stream
when a seed is given, return the flat profile when `damage_amount ≤ 0`,
otherwise draw the randomness (`draw_damage_randomness`), sample the four
walls and fold the running minimum exactly as the source's wall loop
does. -/
def generate_damage_profile (width depth total_height damage_amount : ℚ)
    (min_intact_height : ℚ := 0) (pointiness : ℚ := 0.5) (resolution : ℚ := 1.0)
    (seed : Option ℕ := none) (rng0 : RNG := seed_random 0) : DamageProfiles × RNG :=
  let rng := match seed with
    | some s => seed_random s
    | none => rng0
  if damage_amount ≤ 0 then
    ({ front := [(0, total_height), (width, total_height)],
       back := [(0, total_height), (width, total_height)],
       left := [(0, total_height), (depth, total_height)],
       right := [(0, total_height), (depth, total_height)],
       min_height := total_height, intact_height := total_height }, rng)
  else
    let base_damage_depth := total_height * 0.85 * damage_amount
    let variance_range := base_damage_depth * pointiness
    let absolute_min := max min_intact_height (total_height * 0.1)
    let d := draw_damage_randomness width depth damage_amount resolution rng
    let prof_f := sample_wall_profile .front width total_height base_damage_depth
      variance_range absolute_min d.1.mult_front d.1.zones d.1.offs_front
      (damage_num_points width resolution)
    let m1 := prof_f.foldl (fun m ph => min m ph.2) total_height
    let prof_b := sample_wall_profile .back width total_height base_damage_depth
      variance_range absolute_min d.1.mult_back d.1.zones d.1.offs_back
      (damage_num_points width resolution)
    let m2 := prof_b.foldl (fun m ph => min m ph.2) m1
    let prof_l := sample_wall_profile .left depth total_height base_damage_depth
      variance_range absolute_min d.1.mult_left d.1.zones d.1.offs_left
      (damage_num_points depth resolution)
    let m3 := prof_l.foldl (fun m ph => min m ph.2) m2
    let prof_r := sample_wall_profile .right depth total_height base_damage_depth
      variance_range absolute_min d.1.mult_right d.1.zones d.1.offs_right
      (damage_num_points depth resolution)
    let m4 := prof_r.foldl (fun m ph => min m ph.2) m3
    ({ front := prof_f, back := prof_b, left := prof_l, right := prof_r,
       min_height := max m4 min_intact_height,
       intact_height := min_intact_height }, d.2)

/-- The pair-scanning loop of `get_height_at_position` (src/damage.py
lines 119-129), with the final `return profile[-1][1]` as fallback. -/
def interp_scan : List (ℚ × ℚ) → ℚ → ℚ → ℚ
  | (p1, h1) :: (p2, h2) :: rest, position, fallback =>
    if p1 ≤ position ∧ position ≤ p2 then
      if |p2 - p1| < 0.001 then h1
      else h1 + (position - p1) / (p2 - p1) * (h2 - h1)
    else interp_scan ((p2, h2) :: rest) position fallback
  | _, _, fallback => fallback

/-- `get_height_at_position` (src/damage.py lines 109-129). -/
def get_height_at_position (profile : List (ℚ × ℚ)) (position : ℚ) : ℚ :=
  match profile with
  | [] => 0
  | hd :: tl =>
    let lastp := (hd :: tl).getLast (List.cons_ne_nil hd tl)
    if position ≤ hd.1 then hd.2
    else if position ≥ lastp.1 then lastp.2
    else interp_scan (hd :: tl) position lastp.2

/-- `get_intact_floor_count` (src/damage.py lines 132-136). -/
def get_intact_floor_count (min_height floor_height : ℚ) : ℤ :=
  if floor_height ≤ 0 then 0 else pyInt (min_height / floor_height)

/-- The wall length used for each side of the perimeter in
`generate_damage_profile`: front/back walls run the width, left/right
walls the depth. -/
def wall_length_of (width depth : ℚ) : WallSide → ℚ
  | .front => width
  | .back => width
  | .left => depth
  | .right => depth


/-- The candidate window rectangle for loop index `i` of
`_add_windows_to_wall`:
`[edge_margin + gap + i·(W+gap), +W] × [z_start, z_end]`. -/
def window_candidate (window_width zs ze edge_margin gap : ℚ) (i : ℕ) : Opening :=
  ⟨edge_margin + gap + (i : ℚ) * (window_width + gap),
   edge_margin + gap + (i : ℚ) * (window_width + gap) + window_width,
   zs, ze, "window"⟩

/-- The full candidate list `_add_windows_to_wall` iterates over (after
capping the count and clamping the window top to the wall height); the
bindings mirror `add_windows_to_wall` exactly. -/
def window_candidates (wall : WallSeg) (count : ℤ)
    (window_width window_height spacing sill_height : ℚ) : List Opening :=
  let wall_length := wall.len
  let edge_margin := max 0.3 (spacing * 0.5)
  let available_length := wall_length - 2 * edge_margin
  let min_spacing : ℚ := 0.3
  let max_windows := max 1 (pyInt ((available_length + min_spacing) / (window_width + min_spacing)))
  let count2 := min count max_windows
  let total_window_width := (count2 : ℚ) * window_width
  let remaining_space := available_length - total_window_width
  let gap := if count2 = 1 then remaining_space / 2 else remaining_space / ((count2 : ℚ) + 1)
  let z_start := sill_height
  let z_end := sill_height + window_height
  if z_end > wall.height - 0.2 then
    (List.range count2.toNat).map
      (window_candidate window_width z_start (wall.height - 0.2) edge_margin gap)
  else
    (List.range count2.toNat).map
      (window_candidate window_width z_start z_end edge_margin gap)

/-- Two opening rectangles `[x_start,x_end]×[z_start,z_end]` overlap
(share interior points). -/
def opening_rects_overlap (a b : Opening) : Prop :=
  a.x_start < b.x_end ∧ b.x_start < a.x_end ∧ a.z_start < b.z_end ∧ b.z_start < a.z_end


/-- Modelled from the spec's §4.2 formula (the claim's wording):
`edge_margin = max(0.3, S/2)`, `available = L − 2·edge_margin`, empty
when `available < W`, else `n = min(N, floor((available+0.3)/(W+0.3)))`
openings with `gap = (available − n·W)/(n+1)`, opening `i` spanning
`[edge_margin+gap+i·(W+gap), +W]`. -/
def opening_layout_spec_positions (L : ℚ) (N : ℤ) (W S : ℚ) : List (ℚ × ℚ) :=
  let edge_margin := max 0.3 (S / 2)
  let available := L - 2 * edge_margin
  if available < W then []
  else
    let n := min N ⌊(available + 0.3) / (W + 0.3)⌋
    let gap := (available - (n : ℚ) * W) / ((n : ℚ) + 1)
    (List.range n.toNat).map (fun i : ℕ =>
      (edge_margin + gap + (i : ℚ) * (W + gap),
       edge_margin + gap + (i : ℚ) * (W + gap) + W))


/-! ## Theorems -/

example :
    calc_window_positions 1.2 0.8 4 5 =
      [(2/3, 28/15), (32/15, 10/3)] := by
  norm_num [calc_window_positions, pyInt, show ((2:ℤ).toNat = 2) from rfl,
    List.range_succ, List.map_append, List.map_cons, List.map_nil,
    List.nil_append, List.cons_append]

example :
    (add_windows_to_wall ⟨8, 3.5, []⟩ 3 1.2 1.4 0.8 0.9).openings.map
        (fun o => (o.x_start, o.x_end)) =
      calc_window_positions 1.2 0.8 8 3 := by
  norm_num [add_windows_to_wall, calc_window_positions, pyInt,
    show ((3:ℤ).toNat = 3) from rfl, List.range_succ, List.map_append,
    List.map_cons, List.map_nil, List.nil_append, List.cons_append,
    List.foldl_append, List.foldl_cons, List.foldl_nil,
    place_window, window_overlaps_existing, WallSeg.add_opening]

example :
    ((WarehouseProfile.get_ground_floor_layout 10 10
        { width := 10, depth := 10 }).rooms.map (fun r => r.rtype)) =
      ["warehouse", "office"] := by
  norm_num [WarehouseProfile.get_ground_floor_layout, get_interior_bounds,
    validate_room_size, needs_exterior_stair_door, MIN_ROOM_SIZE, MIN_ROOM_AREA]

example :
    ((ResidentialProfile.generate_floor_layout 8 8 0
        { width := 8, depth := 8 }).rooms.map (fun r => r.rtype)) =
      ["hallway", "apartment", "apartment", "apartment", "apartment"] := by
  norm_num [ResidentialProfile.generate_floor_layout,
    ResidentialProfile.hallway_y_max_of, ResidentialProfile.hallway_width,
    get_interior_bounds, validate_room_size, needs_exterior_stair_door, pyInt,
    MIN_ROOM_SIZE, MIN_ROOM_AREA, show ((2:ℤ).toNat = 2) from rfl,
    List.range_succ, List.filterMap_append, List.filterMap_cons,
    List.filterMap_nil, List.map_append, List.map_cons, List.map_nil,
    List.nil_append, List.cons_append]


/-- Claim C7: the stair zone is a pure function of footprint, wall
thickness and placement keyword — `stair_opening_at_floor` (the value the
builder computes inside its per-floor slab loop) does not depend on the
floor index, so it is identical on every floor of one build — and the
floor-slab opening is the stair zone inset by exactly 0.1 on each of its
four sides. -/
theorem stair_zone_floor_invariant_and_opening_inset :
    (∀ (params : Params) (i j : ℕ),
      stair_opening_at_floor params i = stair_opening_at_floor params j) ∧
    (∀ (width depth wall_thickness : ℚ) (pos : StairPosition),
      get_floor_opening width depth wall_thickness pos =
        { x_min := (get_stair_zone width depth wall_thickness pos).x_min + 0.1
          y_min := (get_stair_zone width depth wall_thickness pos).y_min + 0.1
          x_max := (get_stair_zone width depth wall_thickness pos).x_max - 0.1
          y_max := (get_stair_zone width depth wall_thickness pos).y_max - 0.1 }) :=
  ⟨fun _ _ _ => rfl, fun _ _ _ _ => rfl⟩

/-- The pseudorandom stream is reseeded deterministically from the seed
at the start (`random.seed` in `generate_damage_profile`, mirroring
`util.seed_random` at the top of `BuildingShellBuilder.build`), so the
result of `generate_damage_profile` with an explicit seed is independent
of whatever state the stream was left in by earlier work: two invocations
with equal arguments and equal seed return equal profiles. -/
theorem generate_damage_profile_deterministic :
    ∀ (width depth total_height damage_amount min_intact_height pointiness
        resolution : ℚ) (s : ℕ) (r1 r2 : RNG),
      generate_damage_profile width depth total_height damage_amount
          min_intact_height pointiness resolution (some s) r1 =
        generate_damage_profile width depth total_height damage_amount
          min_intact_height pointiness resolution (some s) r2 :=
  fun _ _ _ _ _ _ _ _ _ _ => rfl

/-- Folding `min` over sample heights never exceeds the start value. -/
theorem foldl_min_le_init (l : List (ℚ × ℚ)) (init : ℚ) :
    l.foldl (fun m ph => min m ph.2) init ≤ init := by
  induction l generalizing init with
  | nil => simp
  | cons hd tl ih => exact le_trans (ih (min init hd.2)) (min_le_left _ _)

/-- Folding `min` over sample heights bounds every member. -/
theorem foldl_min_le_mem (l : List (ℚ × ℚ)) (init : ℚ) :
    ∀ ph ∈ l, l.foldl (fun m ph => min m ph.2) init ≤ ph.2 := by
  induction l generalizing init with
  | nil => intro ph hm; cases hm
  | cons hd tl ih =>
    intro ph hm
    rcases List.mem_cons.mp hm with h | h
    · subst h
      exact le_trans (foldl_min_le_init tl (min init ph.2)) (min_le_right _ _)
    · exact ih (min init hd.2) ph h

/-- Every sampled height of one wall is at least `absolute_min`. -/
theorem sample_wall_profile_height_ge (wall_name : WallSide)
    (wall_length total_height base_damage_depth variance_range absolute_min
      wall_multiplier : ℚ) (zones : List CollapseZone)
    (random_offsets : List ℚ) (num_points : ℕ) :
    ∀ ph ∈ sample_wall_profile wall_name wall_length total_height
        base_damage_depth variance_range absolute_min wall_multiplier zones
        random_offsets num_points,
      absolute_min ≤ ph.2 := by
  intro ph hm
  simp only [sample_wall_profile, List.mem_map] at hm
  obtain ⟨i, _, rfl⟩ := hm
  exact le_max_left _ _

/-- Claim C5 (amended): whenever damage is actually applied
(`damage_amount > 0`), or the configured minimum intact height does not
exceed the building height, the returned profile satisfies
`min_intact_height ≤ min_height`, and every per-wall sample height lies
between `min_height` and `total_height`-side bounds:
`min_height ≤ height` and `min_intact_height ≤ height`. -/
theorem damage_profile_min_height_bounds
    (width depth total_height damage_amount min_intact_height pointiness
      resolution : ℚ) (seed : Option ℕ) (rng : RNG)
    (h : 0 < damage_amount ∨ min_intact_height ≤ total_height) :
    min_intact_height ≤
      (generate_damage_profile width depth total_height damage_amount
        min_intact_height pointiness resolution seed rng).1.min_height ∧
    ∀ side : WallSide,
      ∀ ph ∈ (generate_damage_profile width depth total_height damage_amount
          min_intact_height pointiness resolution seed rng).1.wall side,
        (generate_damage_profile width depth total_height damage_amount
          min_intact_height pointiness resolution seed rng).1.min_height ≤ ph.2 ∧
        min_intact_height ≤ ph.2 := by
  by_cases hda : damage_amount ≤ 0
  · have hmt : min_intact_height ≤ total_height := by
      rcases h with h | h
      · exact absurd hda (not_le.mpr h)
      · exact h
    simp only [generate_damage_profile, if_pos hda]
    refine ⟨hmt, ?_⟩
    intro side ph hm
    cases side <;>
      simp only [DamageProfiles.wall, List.mem_cons, List.not_mem_nil, or_false] at hm <;>
      rcases hm with rfl | rfl <;>
      exact ⟨le_refl _, hmt⟩
  · simp only [generate_damage_profile, if_neg hda]
    refine ⟨le_max_right _ _, ?_⟩
    intro side ph hm
    cases side <;> dsimp only [DamageProfiles.wall] at hm
    · have hmi : min_intact_height ≤ ph.2 :=
        le_trans (le_max_left _ _)
          (sample_wall_profile_height_ge _ _ _ _ _ _ _ _ _ _ ph hm)
      exact ⟨max_le
        (le_trans (foldl_min_le_init _ _) (le_trans (foldl_min_le_init _ _)
          (le_trans (foldl_min_le_init _ _) (foldl_min_le_mem _ _ ph hm)))) hmi, hmi⟩
    · have hmi : min_intact_height ≤ ph.2 :=
        le_trans (le_max_left _ _)
          (sample_wall_profile_height_ge _ _ _ _ _ _ _ _ _ _ ph hm)
      exact ⟨max_le
        (le_trans (foldl_min_le_init _ _) (le_trans (foldl_min_le_init _ _)
          (foldl_min_le_mem _ _ ph hm))) hmi, hmi⟩
    · have hmi : min_intact_height ≤ ph.2 :=
        le_trans (le_max_left _ _)
          (sample_wall_profile_height_ge _ _ _ _ _ _ _ _ _ _ ph hm)
      exact ⟨max_le
        (le_trans (foldl_min_le_init _ _) (foldl_min_le_mem _ _ ph hm)) hmi, hmi⟩
    · have hmi : min_intact_height ≤ ph.2 :=
        le_trans (le_max_left _ _)
          (sample_wall_profile_height_ge _ _ _ _ _ _ _ _ _ _ ph hm)
      exact ⟨max_le (foldl_min_le_mem _ _ ph hm) hmi, hmi⟩

/-- Claim C5 counterexample: with `damage_amount = 0` and
`min_intact_height = 2 > total_height = 1`, the flat no-damage branch
returns `min_height = total_height = 1` and sample heights `1`, both
strictly below `min_intact_height`. -/
theorem damage_profile_min_height_counterexample :
    (generate_damage_profile 1 1 1 0 2 0.5 1 none (seed_random 0)).1.min_height = 1 ∧
    (generate_damage_profile 1 1 1 0 2 0.5 1 none (seed_random 0)).1.front =
      [(0, 1), (1, 1)] ∧
    ¬ ((2 : ℚ) ≤ 1) := by
  refine ⟨?_, ?_, by norm_num⟩ <;> norm_num [generate_damage_profile]

/-- Witness for `damage_profile_min_height_bounds` at a concrete input
with `damage_amount = 1 > 0` and `min_intact_height = 0`. -/
theorem damage_profile_min_height_bounds_witness :
    (0 : ℚ) ≤ (generate_damage_profile 2 2 3 1 0 0.5 1 (some 7)
      (seed_random 0)).1.min_height :=
  (damage_profile_min_height_bounds 2 2 3 1 0 0.5 1 (some 7) (seed_random 0)
    (Or.inl (by norm_num))).1

/-- One wall's sample list has `num_points + 1` entries. -/
theorem sample_wall_profile_length (wall_name : WallSide)
    (wall_length total_height base_damage_depth variance_range absolute_min
      wall_multiplier : ℚ) (zones : List CollapseZone)
    (random_offsets : List ℚ) (num_points : ℕ) :
    (sample_wall_profile wall_name wall_length total_height base_damage_depth
      variance_range absolute_min wall_multiplier zones random_offsets
      num_points).length = num_points + 1 := by
  simp [sample_wall_profile]

/-- Sample `k` of one wall sits at `(k / num_points) · wall_length`. -/
theorem sample_wall_profile_pos (wall_name : WallSide)
    (wall_length total_height base_damage_depth variance_range absolute_min
      wall_multiplier : ℚ) (zones : List CollapseZone)
    (random_offsets : List ℚ) (num_points : ℕ)
    (k : ℕ) (hk : k < num_points + 1) :
    ((sample_wall_profile wall_name wall_length total_height base_damage_depth
      variance_range absolute_min wall_multiplier zones random_offsets
      num_points).getD k (0, 0)).1 =
      ((k : ℚ) / (num_points : ℚ)) * wall_length := by
  have hlen : k < (sample_wall_profile wall_name wall_length total_height
      base_damage_depth variance_range absolute_min wall_multiplier zones
      random_offsets num_points).length := by
    rw [sample_wall_profile_length]; exact hk
  rw [List.getD_eq_getElem _ _ hlen]
  simp [sample_wall_profile]

/-- Claim C4 (amended): with damage enabled and any resolution > 0, each
wall of length `L` is sampled at `damage_num_points L resolution + 1`
evenly spaced points spanning `[0, L]` — the count being
`max(3, int(max(3, int(L/0.8)) · resolution)) + 1` with truncating
`int`, not `max(3, round(L/0.8 · resolution)) + 1`; sample `k` sits at
`(k / num_points) · L`. -/
theorem damage_profile_sample_positions
    (width depth total_height damage_amount min_intact_height pointiness
      resolution : ℚ) (seed : Option ℕ) (rng : RNG)
    (hda : 0 < damage_amount) (_hres : 0 < resolution) :
    ∀ side : WallSide,
      ((generate_damage_profile width depth total_height damage_amount
        min_intact_height pointiness resolution seed rng).1.wall side).length =
        damage_num_points (wall_length_of width depth side) resolution + 1 ∧
      ∀ k : ℕ, k < damage_num_points (wall_length_of width depth side)
          resolution + 1 →
        (((generate_damage_profile width depth total_height damage_amount
          min_intact_height pointiness resolution seed rng).1.wall side).getD
            k (0, 0)).1 =
          ((k : ℚ) / (damage_num_points (wall_length_of width depth side)
            resolution : ℚ)) * wall_length_of width depth side := by
  intro side
  cases side <;>
    simp only [generate_damage_profile, if_neg (not_le.mpr hda),
      DamageProfiles.wall, wall_length_of] <;>
    exact ⟨sample_wall_profile_length _ _ _ _ _ _ _ _ _ _,
      fun k hk => sample_wall_profile_pos _ _ _ _ _ _ _ _ _ _ k hk⟩

/-- Witness for `damage_profile_sample_positions`: front wall of a
2-wide building at resolution 2. -/
theorem damage_profile_sample_positions_witness :
    ((generate_damage_profile 2 5 3 1 0 0.5 2 (some 3)
      (seed_random 0)).1.wall .front).length = damage_num_points 2 2 + 1 :=
  ((damage_profile_sample_positions 2 5 3 1 0 0.5 2 (some 3) (seed_random 0)
    (by norm_num) (by norm_num)) .front).1

/-- Claim C4 counterexample: on a wall of length 2 at resolution 2 the
code samples `max(3, int(max(3, int(2/0.8)) · 2)) + 1 = 7` points, while
`max(3, round(2/0.8 · 2)) + 1 = 6`. -/
theorem damage_sample_count_counterexample :
    ((generate_damage_profile 2 5 3 1 0 0.5 2 none (seed_random 0)).1.front).length = 7 ∧
    (max 3 (round ((2 : ℚ) / 0.8 * 2)) + 1 : ℤ) = 6 := by
  constructor
  · have h1 : ¬ ((1 : ℚ) ≤ 0) := by norm_num
    simp only [generate_damage_profile, if_neg h1]
    rw [sample_wall_profile_length]
    norm_num [damage_num_points, pyInt]
    decide
  · norm_num [round_eq]

/-- In a profile with strictly increasing positions, entry `i` sits left
of entry `j` when `i < j`. -/
theorem getD_lt_of_pairwise (l : List (ℚ × ℚ))
    (hs : l.Pairwise (fun a b => a.1 < b.1)) {i j : ℕ} (hij : i < j)
    (hj : j < l.length) : (l.getD i (0, 0)).1 < (l.getD j (0, 0)).1 := by
  have hi : i < l.length := lt_trans hij hj
  rw [List.getD_eq_getElem _ _ hi, List.getD_eq_getElem _ _ hj]
  have := List.pairwise_iff_get.mp hs ⟨i, hi⟩ ⟨j, hj⟩ hij
  simpa using this

/-- In a sorted profile, the head is leftmost. -/
theorem headD_le_getD (l : List (ℚ × ℚ))
    (hs : l.Pairwise (fun a b => a.1 < b.1)) {j : ℕ} (hj : j < l.length) :
    (l.getD 0 (0, 0)).1 ≤ (l.getD j (0, 0)).1 := by
  cases j with
  | zero => exact le_refl _
  | succ j => exact le_of_lt (getD_lt_of_pairwise l hs (Nat.succ_pos j) hj)

/-- In a sorted profile, every entry is left of (or equal to) the last. -/
theorem getD_le_getLast (l : List (ℚ × ℚ)) (hne : l ≠ [])
    (hs : l.Pairwise (fun a b => a.1 < b.1)) {j : ℕ} (hj : j < l.length) :
    (l.getD j (0, 0)).1 ≤ (l.getLast hne).1 := by
  have hlast : l.getLast hne = l.getD (l.length - 1) (0, 0) := by
    rw [List.getLast_eq_getElem, List.getD_eq_getElem]
  rw [hlast]
  rcases Nat.lt_or_ge j (l.length - 1) with h | h
  · exact le_of_lt (getD_lt_of_pairwise l hs h (by omega))
  · have : j = l.length - 1 := by omega
    rw [this]

/-- The scan of `get_height_at_position` lands on the bracketing pair:
when the positions are strictly increasing and `position` lies strictly
between entries `i` and `i+1`, the scan returns entry `i`'s
interpolation. -/
theorem interp_scan_spec :
    ∀ (l : List (ℚ × ℚ)) (i : ℕ) (position fb : ℚ),
      l.Pairwise (fun a b => a.1 < b.1) → i + 1 < l.length →
      (l.getD i (0, 0)).1 < position → position < (l.getD (i + 1) (0, 0)).1 →
      interp_scan l position fb =
        (if |(l.getD (i + 1) (0, 0)).1 - (l.getD i (0, 0)).1| < 0.001
         then (l.getD i (0, 0)).2
         else (l.getD i (0, 0)).2 +
           (position - (l.getD i (0, 0)).1) /
             ((l.getD (i + 1) (0, 0)).1 - (l.getD i (0, 0)).1) *
           ((l.getD (i + 1) (0, 0)).2 - (l.getD i (0, 0)).2))
  | [], i, position, fb => by simp
  | [a], i, position, fb => by simp
  | a :: b :: rest, 0, position, fb => by
    intro _ _ h1 h2
    simp only [List.getD_cons_zero, List.getD_cons_succ] at h1 h2 ⊢
    obtain ⟨pa, ha⟩ := a
    obtain ⟨pb, hb⟩ := b
    simp only [interp_scan]
    rw [if_pos ⟨le_of_lt h1, le_of_lt h2⟩]
  | a :: b :: rest, (j + 1), position, fb => by
    intro hsort hlen h1 h2
    have hsort' : (b :: rest).Pairwise (fun a b => a.1 < b.1) :=
      (List.pairwise_cons.mp hsort).2
    have hlen' : j + 1 < (b :: rest).length := by
      simpa using Nat.lt_of_succ_lt_succ hlen
    have h1' : ((b :: rest).getD j (0, 0)).1 < position := by
      simpa using h1
    have h2' : position < ((b :: rest).getD (j + 1) (0, 0)).1 := by
      simpa using h2
    have hble : b.1 ≤ ((b :: rest).getD j (0, 0)).1 := by
      have := headD_le_getD (b :: rest) hsort' (j := j) (Nat.lt_of_succ_lt hlen')
      simpa using this
    have hnot : ¬ (a.1 ≤ position ∧ position ≤ b.1) := by
      rintro ⟨-, hpb⟩
      exact absurd (lt_of_le_of_lt hble h1') (not_lt.mpr hpb)
    obtain ⟨pa, ha⟩ := a
    obtain ⟨pb, hb⟩ := b
    simp only [interp_scan]
    rw [if_neg hnot]
    have := interp_scan_spec (⟨pb, hb⟩ :: rest) j position fb hsort' hlen' h1' h2'
    simpa using this

/-- Claim C9: `get_height_at_position` returns 0 on the empty profile,
the first sample's height at or before the first position, the last
sample's height at or after the last position (for a profile with
strictly increasing positions), and for a position strictly between
adjacent samples `i` and `i+1` the linear interpolation
`h1 + (position−pos1)/(pos2−pos1)·(h2−h1)`, short-circuiting to `h1`
when `|pos2−pos1| < 0.001`. -/
theorem get_height_at_position_spec :
    (∀ position : ℚ, get_height_at_position [] position = 0) ∧
    (∀ (hd : ℚ × ℚ) (tl : List (ℚ × ℚ)) (position : ℚ), position ≤ hd.1 →
      get_height_at_position (hd :: tl) position = hd.2) ∧
    (∀ (profile : List (ℚ × ℚ)) (hne : profile ≠ []) (position : ℚ),
      profile.Pairwise (fun a b => a.1 < b.1) →
      (profile.getLast hne).1 ≤ position →
      get_height_at_position profile position = (profile.getLast hne).2) ∧
    (∀ (profile : List (ℚ × ℚ)) (position : ℚ) (i : ℕ),
      profile.Pairwise (fun a b => a.1 < b.1) →
      i + 1 < profile.length →
      (profile.getD i (0, 0)).1 < position →
      position < (profile.getD (i + 1) (0, 0)).1 →
      get_height_at_position profile position =
        (if |(profile.getD (i + 1) (0, 0)).1 - (profile.getD i (0, 0)).1| < 0.001
         then (profile.getD i (0, 0)).2
         else (profile.getD i (0, 0)).2 +
           (position - (profile.getD i (0, 0)).1) /
             ((profile.getD (i + 1) (0, 0)).1 - (profile.getD i (0, 0)).1) *
           ((profile.getD (i + 1) (0, 0)).2 - (profile.getD i (0, 0)).2))) := by
  refine ⟨fun _ => rfl, ?_, ?_, ?_⟩
  · intro hd tl position hle
    simp only [get_height_at_position]
    rw [if_pos hle]
  · intro profile hne position hsort hlast
    obtain ⟨hd, tl, rfl⟩ := List.exists_cons_of_ne_nil hne
    simp only [get_height_at_position]
    by_cases hle : position ≤ hd.1
    · rw [if_pos hle]
      cases tl with
      | nil => simp [List.getLast]
      | cons b t =>
        exfalso
        have hmem : (b :: t).getLast (List.cons_ne_nil b t) ∈ b :: t :=
          List.getLast_mem _
        have hlt : hd.1 < ((b :: t).getLast (List.cons_ne_nil b t)).1 :=
          (List.pairwise_cons.mp hsort).1 _ hmem
        rw [List.getLast_cons (List.cons_ne_nil b t)] at hlast
        exact absurd (lt_of_lt_of_le hlt hlast) (not_lt.mpr hle)
    · rw [if_neg hle, if_pos hlast]
  · intro profile position i hsort hlen h1 h2
    have hne : profile ≠ [] := by
      rintro rfl; simp at hlen
    obtain ⟨hd, tl, rfl⟩ := List.exists_cons_of_ne_nil hne
    have h0 : ((hd :: tl).getD 0 (0, 0)).1 < position :=
      lt_of_le_of_lt (headD_le_getD _ hsort (Nat.lt_of_succ_lt hlen)) h1
    have hfirst : ¬ position ≤ hd.1 := by
      simp only [List.getD_cons_zero] at h0
      exact not_le.mpr h0
    have hlastgt : position < ((hd :: tl).getLast (List.cons_ne_nil hd tl)).1 :=
      lt_of_lt_of_le h2 (getD_le_getLast _ (List.cons_ne_nil hd tl) hsort hlen)
    simp only [get_height_at_position]
    rw [if_neg hfirst, if_neg (not_le.mpr hlastgt)]
    exact interp_scan_spec _ i position _ hsort hlen h1 h2

/-- Witness for `get_height_at_position_spec`: on the profile
`[(0,3),(2,1)]` the query at the midpoint interpolates to 2, the query at
3 clamps to the last height. -/
theorem get_height_at_position_spec_witness :
    get_height_at_position [(0, 3), (2, 1)] 1 = 2 ∧
    get_height_at_position [(0, 3), (2, 1)] 3 = 1 := by
  constructor
  · have h := get_height_at_position_spec.2.2.2 [(0, 3), (2, 1)] 1 0
      (by norm_num) (by norm_num) (by norm_num) (by norm_num)
    rw [h]
    norm_num
  · have h := get_height_at_position_spec.2.2.1 [(0, 3), (2, 1)]
      (List.cons_ne_nil _ _) 3 (by norm_num) (by norm_num [List.getLast])
    rw [h]
    norm_num [List.getLast]

set_option maxHeartbeats 1000000 in
/-- Claim C6 (amended): `validate_and_adjust_cardinal_wall` returns
`(None, None)` exactly when the wall is diagonal (`|Δx| > 0.1` and
`|Δy| > 0.1`), or — on the wall's axis — the *start* endpoint lies within
0.01 of the *min* interior bound with the averaged constant coordinate
blocked on that side's exterior wall, or the *end* endpoint lies within
0.01 of the *max* interior bound with the constant coordinate blocked on
that side; a start endpoint at the max bound or an end endpoint at the
min bound is never checked.  Otherwise it returns the wall snapped
cardinal by averaging the near-constant coordinate. -/
theorem validate_and_adjust_cardinal_wall_spec
    (ws we : Vec2) (width depth wall_thickness : ℚ) (wp : WindowPositions) :
    validate_and_adjust_cardinal_wall ws we width depth wall_thickness wp =
      (if |we.1 - ws.1| > 0.1 ∧ |we.2 - ws.2| > 0.1 then none
       else if |we.1 - ws.1| > |we.2 - ws.2| then
        if (|ws.1 - wall_thickness| < 0.01 ∧
              is_position_blocked_by_opening ((ws.2 + we.2) / 2) .left wp = true) ∨
            (|we.1 - (width - wall_thickness)| < 0.01 ∧
              is_position_blocked_by_opening ((ws.2 + we.2) / 2) .right wp = true)
        then none
        else some ((ws.1, (ws.2 + we.2) / 2), (we.1, (ws.2 + we.2) / 2))
       else
        if (|ws.2 - wall_thickness| < 0.01 ∧
              is_position_blocked_by_opening ((ws.1 + we.1) / 2) .front wp = true) ∨
            (|we.2 - (depth - wall_thickness)| < 0.01 ∧
              is_position_blocked_by_opening ((ws.1 + we.1) / 2) .back wp = true)
        then none
        else some (((ws.1 + we.1) / 2, ws.2), ((ws.1 + we.1) / 2, we.2))) := by
  simp only [validate_and_adjust_cardinal_wall, get_interior_bounds]
  split_ifs <;> first | rfl | tauto

/-- Claim C6 counterexample: the wall from `(5,2)` to `(1/4,2)` has its
*end* endpoint on the left exterior wall (interior bound `1/4`, distance
0), and its constant coordinate 2 lies inside the clearance zone of the
left wall's opening `(3/2, 5/2)` — yet the function returns the wall
(only start-vs-min-bound and end-vs-max-bound are ever checked), instead
of the `(None, None)` the claim requires for every blocked touching
endpoint. -/
theorem validate_and_adjust_cardinal_wall_counterexample :
    validate_and_adjust_cardinal_wall (5, 2) (1/4, 2) 8 8 (1/4)
        ⟨[], [], [(3/2, 5/2)], []⟩ =
      some ((5, 2), (1/4, 2)) ∧
    |(1/4 : ℚ) - 1/4| < 0.01 ∧
    is_position_blocked_by_opening 2 .left ⟨[], [], [(3/2, 5/2)], []⟩ = true := by
  refine ⟨?_, by norm_num, ?_⟩
  · norm_num [validate_and_adjust_cardinal_wall, get_interior_bounds,
      is_position_blocked_by_opening, WindowPositions.get, WALL_CLEARANCE,
      abs_of_nonneg, abs_of_nonpos]
  · norm_num [is_position_blocked_by_opening, WindowPositions.get, WALL_CLEARANCE]

/-- `validate_room_size` checks exactly the usability invariant. -/
theorem validate_room_size_eq_true (w d : ℚ) :
    validate_room_size w d = true ↔
      MIN_ROOM_SIZE ≤ w ∧ MIN_ROOM_SIZE ≤ d ∧ MIN_ROOM_AREA ≤ w * d := by
  simp only [validate_room_size]
  split_ifs with h1 h2
  · simp only [Bool.false_eq_true, false_iff]
    push_neg at h1 ⊢
    intro hw
    rcases h1 with h | h
    · exact absurd hw (not_le.mpr h)
    · intro hd; exact absurd hd (not_le.mpr h)
  · simp only [Bool.false_eq_true, false_iff]
    push_neg at h1
    intro hc
    exact absurd hc.2.2 (not_le.mpr h2)
  · push_neg at h1
    simp only [true_iff]
    exact ⟨h1.1, h1.2, not_lt.mp h2⟩

theorem storefront_upper_rooms_validated (width depth : ℚ) (floor_idx : ℕ)
    (params : Params) :
    ∀ room ∈ (StorefrontProfile.get_upper_floor_layout width depth floor_idx
      params).rooms,
      MIN_ROOM_SIZE ≤ room.x_max - room.x_min ∧
      MIN_ROOM_SIZE ≤ room.y_max - room.y_min ∧
      MIN_ROOM_AREA ≤ (room.x_max - room.x_min) * (room.y_max - room.y_min) := by
  intro room hmem
  simp only [StorefrontProfile.get_upper_floor_layout, get_interior_bounds] at hmem
  split at hmem
  · simp at hmem
  · split at hmem
    · split at hmem
      · simp at hmem
      · rename_i divider_y heq
        split at hmem
        · simp at hmem
        · rename_i hok
          push_neg at hok
          obtain ⟨hA, hB⟩ := hok
          rw [validate_room_size_eq_true] at hA hB
          simp only [List.mem_cons, List.not_mem_nil, or_false] at hmem
          rcases hmem with rfl | rfl
          · exact ⟨hA.1, hA.2.1, hA.2.2⟩
          · exact ⟨hB.1, hB.2.1, hB.2.2⟩
    · simp at hmem

theorem storefront_ground_rooms_validated (width depth : ℚ) (params : Params) :
    ∀ room ∈ (StorefrontProfile.get_ground_floor_layout width depth params).rooms,
      room.name ≠ "open_retail" →
      MIN_ROOM_SIZE ≤ room.x_max - room.x_min ∧
      MIN_ROOM_SIZE ≤ room.y_max - room.y_min ∧
      MIN_ROOM_AREA ≤ (room.x_max - room.x_min) * (room.y_max - room.y_min) := by
  intro room hmem hname
  simp only [StorefrontProfile.get_ground_floor_layout, get_interior_bounds] at hmem
  split at hmem
  · simp only [List.mem_cons, List.not_mem_nil, or_false] at hmem
    subst hmem
    simp at hname
  · split at hmem
    · simp only [List.mem_cons, List.not_mem_nil, or_false] at hmem
      subst hmem
      simp at hname
    · rename_i divider_y heq
      split at hmem
      · simp only [List.mem_cons, List.not_mem_nil, or_false] at hmem
        subst hmem
        simp at hname
      · rename_i hok
        push_neg at hok
        obtain ⟨hA, hB⟩ := hok
        rw [validate_room_size_eq_true] at hA hB
        simp only [List.mem_cons, List.not_mem_nil, or_false] at hmem
        rcases hmem with rfl | rfl
        · exact ⟨hA.1, hA.2.1, hA.2.2⟩
        · exact ⟨hB.1, hB.2.1, hB.2.2⟩

/-- Arithmetic for the warehouse split's `warehouse_floor` room, bounds
`(xmin + ow, ymin, xmax, ymax)`: usable once the interior passed both
office guards and the office is at most 3.5 wide. -/
theorem warehouse_split_floor_room_ok (xmin ymin xmax ymax ow : ℚ)
    (hiw : xmax - xmin > max MIN_ROOM_SIZE 2.5 * 2 + 1.0)
    (hid : ymax - ymin > max MIN_ROOM_SIZE 2.5 * 2 + 1.0)
    (how : ow ≤ 3.5) :
    MIN_ROOM_SIZE ≤ xmax - (xmin + ow) ∧
    MIN_ROOM_SIZE ≤ ymax - ymin ∧
    MIN_ROOM_AREA ≤ (xmax - (xmin + ow)) * (ymax - ymin) := by
  have hm : MIN_ROOM_SIZE = 5/2 := by norm_num [MIN_ROOM_SIZE]
  have ha : MIN_ROOM_AREA = 6 := by norm_num [MIN_ROOM_AREA]
  norm_num [hm] at hiw hid
  rw [hm, ha]
  have hW : (5/2 : ℚ) ≤ xmax - (xmin + ow) := by linarith
  have hD : (6 : ℚ) ≤ ymax - ymin := by linarith
  refine ⟨hW, by linarith, ?_⟩
  have hprod : (5/2 : ℚ) * 6 ≤ (xmax - (xmin + ow)) * (ymax - ymin) :=
    mul_le_mul hW hD (by norm_num) (by linarith)
  linarith

/-- Arithmetic for the warehouse split's `office` room, bounds
`(xmin, ymin, xmin + ow, ymin + od)`: usable since both office dimensions
are at least `max MIN_ROOM_SIZE 2.5 = 2.5`. -/
theorem warehouse_split_office_room_ok (xmin ymin ow od : ℚ)
    (how : max MIN_ROOM_SIZE 2.5 ≤ ow) (hod : max MIN_ROOM_SIZE 2.5 ≤ od) :
    MIN_ROOM_SIZE ≤ (xmin + ow) - xmin ∧
    MIN_ROOM_SIZE ≤ (ymin + od) - ymin ∧
    MIN_ROOM_AREA ≤ ((xmin + ow) - xmin) * ((ymin + od) - ymin) := by
  have hm : MIN_ROOM_SIZE = 5/2 := by norm_num [MIN_ROOM_SIZE]
  have ha : MIN_ROOM_AREA = 6 := by norm_num [MIN_ROOM_AREA]
  norm_num [hm] at how hod
  rw [hm, ha]
  refine ⟨by linarith, by linarith, ?_⟩
  have e : ((xmin + ow) - xmin) * ((ymin + od) - ymin) = ow * od := by ring
  rw [e]
  nlinarith

/-- `WarehouseProfile.get_ground_floor_layout` either returns the
single-room fallback or every emitted room is usable. -/
theorem warehouse_ground_rooms_cases (width depth : ℚ) (params : Params) :
    (WarehouseProfile.get_ground_floor_layout width depth params).rooms.length = 1 ∨
    ∀ room ∈ (WarehouseProfile.get_ground_floor_layout width depth params).rooms,
      MIN_ROOM_SIZE ≤ room.x_max - room.x_min ∧
      MIN_ROOM_SIZE ≤ room.y_max - room.y_min ∧
      MIN_ROOM_AREA ≤ (room.x_max - room.x_min) * (room.y_max - room.y_min) := by
  simp only [WarehouseProfile.get_ground_floor_layout, get_interior_bounds]
  split
  · rename_i hc
    right
    intro room hmem
    simp only [List.mem_cons, List.not_mem_nil, or_false] at hmem
    rcases hmem with rfl | rfl
    · exact warehouse_split_floor_room_ok _ _ _ _ _ hc.1 hc.2.1
        (max_le (by norm_num [MIN_ROOM_SIZE]) (min_le_left _ _))
    · exact warehouse_split_office_room_ok _ _ _ _ (le_max_left _ _) (le_max_left _ _)
  · left
    rfl

/-- Arithmetic for a residential apartment room whose x-extent is the
validated `room_width_each_side` placed at `xlo` and whose y-extent is
the validated `room_depth` placed at `ys`. -/
theorem residential_side_room_ok (xlo w ys d : ℚ)
    (h1 : MIN_ROOM_SIZE ≤ w) (h2 : MIN_ROOM_SIZE ≤ d) (h3 : MIN_ROOM_AREA ≤ w * d) :
    MIN_ROOM_SIZE ≤ (xlo + w) - xlo ∧
    MIN_ROOM_SIZE ≤ (ys + d) - ys ∧
    MIN_ROOM_AREA ≤ ((xlo + w) - xlo) * ((ys + d) - ys) := by
  refine ⟨by linarith, by linarith, ?_⟩
  have e : ((xlo + w) - xlo) * ((ys + d) - ys) = w * d := by ring
  rw [e]
  exact h3

/-- Arithmetic for a right-side residential apartment room: its x-extent
`xmax - hallway_x_right` equals `room_width_each_side` by construction of
the centred hallway. -/
theorem residential_right_room_ok (xmin xmax hw ys d : ℚ)
    (h1 : MIN_ROOM_SIZE ≤ ((xmax - xmin) - hw) / 2)
    (h2 : MIN_ROOM_SIZE ≤ d)
    (h3 : MIN_ROOM_AREA ≤ ((xmax - xmin) - hw) / 2 * d) :
    MIN_ROOM_SIZE ≤ xmax - (xmin + ((xmax - xmin) - hw) / 2 + hw) ∧
    MIN_ROOM_SIZE ≤ (ys + d) - ys ∧
    MIN_ROOM_AREA ≤ (xmax - (xmin + ((xmax - xmin) - hw) / 2 + hw)) * ((ys + d) - ys) := by
  have e : xmax - (xmin + ((xmax - xmin) - hw) / 2 + hw) = ((xmax - xmin) - hw) / 2 := by
    ring
  have e2 : (ys + d) - ys = d := by ring
  rw [e, e2]
  exact ⟨h1, h2, h3⟩

/-- Every non-hallway room emitted by
`ResidentialProfile._generate_floor_layout` passed the
`validate_room_size` guard of interiors.py lines 997/1008 and is
usable. -/
theorem residential_rooms_validated (width depth : ℚ) (floor_idx : ℕ) (params : Params) :
    ∀ room ∈ (ResidentialProfile.generate_floor_layout width depth floor_idx params).rooms,
      room.rtype ≠ "hallway" →
      MIN_ROOM_SIZE ≤ room.x_max - room.x_min ∧
      MIN_ROOM_SIZE ≤ room.y_max - room.y_min ∧
      MIN_ROOM_AREA ≤ (room.x_max - room.x_min) * (room.y_max - room.y_min) := by
  intro room hmem htype
  simp only [ResidentialProfile.generate_floor_layout, get_interior_bounds] at hmem
  split at hmem
  · simp at hmem
  · split at hmem
    · simp at hmem
    · split at hmem
      · split at hmem
        · simp at hmem
        · simp only [List.mem_cons, List.mem_append, List.mem_filterMap,
            List.mem_range] at hmem
          rcases hmem with rfl | ⟨i, _hi, hf⟩ | ⟨i, _hi, hf⟩
          · simp at htype
          · rw [Option.ite_none_right_eq_some, Option.some.injEq] at hf
            obtain ⟨hcond, hf⟩ := hf
            subst hf
            obtain ⟨hv1, hv2, hv3⟩ := (validate_room_size_eq_true _ _).mp hcond.2
            exact residential_side_room_ok _ _ _ _ hv1 hv2 hv3
          · rw [Option.ite_none_right_eq_some, Option.some.injEq] at hf
            obtain ⟨hcond, hf⟩ := hf
            subst hf
            obtain ⟨hv1, hv2, hv3⟩ := (validate_room_size_eq_true _ _).mp hcond.2
            exact residential_right_room_ok _ _ _ _ _ hv1 hv2 hv3
      · split at hmem
        · simp at hmem
        · simp only [List.mem_cons, List.mem_append, List.mem_filterMap,
            List.mem_range] at hmem
          rcases hmem with rfl | ⟨i, _hi, hf⟩ | ⟨i, _hi, hf⟩
          · simp at htype
          · rw [Option.ite_none_right_eq_some, Option.some.injEq] at hf
            obtain ⟨hcond, hf⟩ := hf
            subst hf
            obtain ⟨hv1, hv2, hv3⟩ := (validate_room_size_eq_true _ _).mp hcond.2
            exact residential_side_room_ok _ _ _ _ hv1 hv2 hv3
          · rw [Option.ite_none_right_eq_some, Option.some.injEq] at hf
            obtain ⟨hcond, hf⟩ := hf
            subst hf
            obtain ⟨hv1, hv2, hv3⟩ := (validate_room_size_eq_true _ _).mp hcond.2
            exact residential_right_room_ok _ _ _ _ _ hv1 hv2 hv3

/-- Claim C1 (amended): rooms produced through `validate_room_size`-guarded
subdivision paths satisfy the usability invariant (width ≥ 2.5,
depth ≥ 2.5, area ≥ 6.0): every room of
`StorefrontProfile.get_ground_floor_layout` other than the single
`open_retail` fallback room, every room of
`StorefrontProfile.get_upper_floor_layout`, every room of
`WarehouseProfile.get_ground_floor_layout` whenever the office split
occurred (the layout has more than one room), and every non-hallway room
of `ResidentialProfile._generate_floor_layout` (both floors' layouts
delegate to it).  Unvalidated rooms — the one-room fallbacks, all
`BarProfile` rooms, and the residential hallway of fixed width 1.4 — are
exempt. -/
theorem validated_rooms_usability_invariant :
    (∀ (width depth : ℚ) (params : Params),
      ∀ room ∈ (StorefrontProfile.get_ground_floor_layout width depth
        params).rooms,
        room.name ≠ "open_retail" →
        MIN_ROOM_SIZE ≤ room.x_max - room.x_min ∧
        MIN_ROOM_SIZE ≤ room.y_max - room.y_min ∧
        MIN_ROOM_AREA ≤ (room.x_max - room.x_min) * (room.y_max - room.y_min)) ∧
    (∀ (width depth : ℚ) (floor_idx : ℕ) (params : Params),
      ∀ room ∈ (StorefrontProfile.get_upper_floor_layout width depth floor_idx
        params).rooms,
        MIN_ROOM_SIZE ≤ room.x_max - room.x_min ∧
        MIN_ROOM_SIZE ≤ room.y_max - room.y_min ∧
        MIN_ROOM_AREA ≤ (room.x_max - room.x_min) * (room.y_max - room.y_min)) ∧
    (∀ (width depth : ℚ) (params : Params),
      1 < (WarehouseProfile.get_ground_floor_layout width depth
        params).rooms.length →
      ∀ room ∈ (WarehouseProfile.get_ground_floor_layout width depth
        params).rooms,
        MIN_ROOM_SIZE ≤ room.x_max - room.x_min ∧
        MIN_ROOM_SIZE ≤ room.y_max - room.y_min ∧
        MIN_ROOM_AREA ≤ (room.x_max - room.x_min) * (room.y_max - room.y_min)) ∧
    (∀ (width depth : ℚ) (floor_idx : ℕ) (params : Params),
      ∀ room ∈ (ResidentialProfile.generate_floor_layout width depth floor_idx
        params).rooms,
        room.rtype ≠ "hallway" →
        MIN_ROOM_SIZE ≤ room.x_max - room.x_min ∧
        MIN_ROOM_SIZE ≤ room.y_max - room.y_min ∧
        MIN_ROOM_AREA ≤ (room.x_max - room.x_min) * (room.y_max - room.y_min)) := by
  refine ⟨fun width depth params =>
      storefront_ground_rooms_validated width depth params,
    fun width depth floor_idx params =>
      storefront_upper_rooms_validated width depth floor_idx params,
    fun width depth params hlen => ?_,
    fun width depth floor_idx params =>
      residential_rooms_validated width depth floor_idx params⟩
  rcases warehouse_ground_rooms_cases width depth params with h | h
  · rw [h] at hlen
    exact absurd hlen (by norm_num)
  · exact h

/-- Claim C1 counterexample: `BarProfile.get_ground_floor_layout` on a
3×3 footprint emits the `seating` room with bounds
`(1/4, 1/4, 11/4, 3/2)` — depth `5/4 < 2.5` and area `25/8 < 6` — so not
every emitted Room satisfies the usability invariant. -/
theorem bar_ground_room_counterexample :
    ((BarProfile.get_ground_floor_layout 3 3
        { width := 3, depth := 3 }).rooms.map
      (fun r => (r.name, r.x_min, r.y_min, r.x_max, r.y_max))) =
      [("seating", 1/4, 1/4, 11/4, 3/2), ("bar_area", 1, 3/2, 11/4, 11/4)] ∧
    ((3 : ℚ)/2 - 1/4 < MIN_ROOM_SIZE ∧
      (11/4 - 1/4 : ℚ) * (3/2 - 1/4) < MIN_ROOM_AREA) := by
  constructor
  · norm_num [BarProfile.get_ground_floor_layout, get_interior_bounds,
      needs_exterior_stair_door]
  · norm_num [MIN_ROOM_SIZE, MIN_ROOM_AREA]

/-- Witness for `validated_rooms_usability_invariant`: the 8×6 default
ground floor splits into `retail_front` and `back_room`; the
`retail_front` room satisfies the width bound. -/
theorem validated_rooms_usability_invariant_witness :
    MIN_ROOM_SIZE ≤ (31/4 : ℚ) - 1/4 :=
  (validated_rooms_usability_invariant.1 8 6 {}
    ⟨"retail_front", 1/4, 1/4, 31/4, 13/4, "retail"⟩
    (by norm_num [StorefrontProfile.get_ground_floor_layout,
      get_interior_bounds, calculate_optimal_divider_position,
      validate_room_size, needs_exterior_stair_door,
      MIN_ROOM_SIZE, MIN_ROOM_AREA, STAIR_ZONE_DEPTH])
    (by decide)).1

/-- Unfolding of the overlap scan's negative result. -/
theorem window_overlaps_existing_eq_false (openings : List Opening)
    (xs xe zs ze : ℚ) :
    window_overlaps_existing openings xs xe zs ze = false ↔
      ∀ e ∈ openings,
        (xe + 0.1 ≤ e.x_start ∨ xs - 0.1 ≥ e.x_end) ∨
        (ze ≤ e.z_start ∨ zs ≥ e.z_end) := by
  simp only [window_overlaps_existing, List.any_eq_false, Bool.and_eq_true,
    Bool.not_eq_true', Bool.or_eq_false_iff, decide_eq_false_iff_not, not_le,
    not_lt, ge_iff_le, Classical.not_and_iff_or_not_not, not_forall, not_exists]

/-- A candidate that passes the scan does not overlap any scanned
opening. -/
theorem passed_candidate_not_overlap (openings : List Opening)
    (xs xe zs ze : ℚ)
    (h : window_overlaps_existing openings xs xe zs ze = false)
    (e : Opening) (he : e ∈ openings) (kind : String) :
    ¬ opening_rects_overlap e ⟨xs, xe, zs, ze, kind⟩ := by
  rcases (window_overlaps_existing_eq_false openings xs xe zs ze).mp h e he with
    (hx | hx) | (hz | hz) <;>
    rintro ⟨o1, o2, o3, o4⟩
  · exact absurd o1 (not_lt.mpr (by linarith))
  · exact absurd o2 (not_lt.mpr (by linarith))
  · exact absurd o3 (not_lt.mpr (by linarith))
  · exact absurd o4 (not_lt.mpr (by linarith))

/-- Peeling the last step off the placement fold. -/
theorem place_fold_succ (window_width zs ze edge_margin gap : ℚ)
    (w : WallSeg) (n : ℕ) :
    (List.range (n + 1)).foldl (place_window window_width zs ze edge_margin gap) w =
      place_window window_width zs ze edge_margin gap
        ((List.range n).foldl (place_window window_width zs ze edge_margin gap) w) n := by
  rw [List.range_succ, List.foldl_append, List.foldl_cons, List.foldl_nil]

/-- The placement fold only appends: the incoming openings stay as a
prefix, and whatever follows is a sublist of the candidate list (skipped
candidates are dropped whole, never moved). -/
theorem place_fold_append (window_width zs ze edge_margin gap : ℚ)
    (w : WallSeg) (n : ℕ) :
    ∃ ws : List Opening,
      ((List.range n).foldl (place_window window_width zs ze edge_margin gap)
        w).openings = w.openings ++ ws ∧
      ws.Sublist ((List.range n).map
        (window_candidate window_width zs ze edge_margin gap)) := by
  induction n with
  | zero => exact ⟨[], by simp, by simp⟩
  | succ n ih =>
    obtain ⟨ws, hws, hsub⟩ := ih
    rw [place_fold_succ]
    have hprefix : ((List.range n).map
        (window_candidate window_width zs ze edge_margin gap)).Sublist
        ((List.range (n + 1)).map
          (window_candidate window_width zs ze edge_margin gap)) := by
      rw [List.range_succ, List.map_append]
      exact List.sublist_append_left _ _
    simp only [place_window]
    split_ifs with hover
    · exact ⟨ws, hws, hsub.trans hprefix⟩
    · refine ⟨ws ++ [window_candidate window_width zs ze edge_margin gap n], ?_, ?_⟩
      · simp only [WallSeg.add_opening, hws, List.append_assoc]
        rfl
      · rw [List.range_succ, List.map_append, List.map_cons, List.map_nil]
        exact hsub.append (List.Sublist.refl _)

/-- The placement fold preserves pairwise non-overlap of the opening
list: every appended window passed the scan against all openings present
at its turn, and a padded-disjoint or vertically disjoint pair cannot
overlap. -/
theorem place_fold_pairwise (window_width zs ze edge_margin gap : ℚ)
    (w : WallSeg) (n : ℕ)
    (h : w.openings.Pairwise (fun a b => ¬ opening_rects_overlap a b)) :
    (((List.range n).foldl (place_window window_width zs ze edge_margin gap)
      w).openings).Pairwise (fun a b => ¬ opening_rects_overlap a b) := by
  induction n with
  | zero => simpa using h
  | succ n ih =>
    rw [place_fold_succ]
    simp only [place_window]
    split_ifs with hover
    · exact ih
    · simp only [WallSeg.add_opening]
      rw [List.pairwise_append]
      refine ⟨ih, List.pairwise_singleton _ _, ?_⟩
      intro a ha b hb
      simp only [List.mem_singleton] at hb
      subst hb
      exact passed_candidate_not_overlap _ _ _ _ _
        (Bool.eq_false_iff.mpr hover) a ha _

/-- When the wall starts with no openings and the inter-window gap is at
least the 0.1 scan padding, no candidate is ever skipped: the fold places
the complete candidate list. -/
theorem place_fold_no_skip (window_width zs ze edge_margin gap : ℚ)
    (hw : 0 < window_width) (hgap : 0.1 ≤ gap) (w : WallSeg)
    (hempty : w.openings = []) (n : ℕ) :
    ((List.range n).foldl (place_window window_width zs ze edge_margin gap)
      w).openings =
      (List.range n).map (window_candidate window_width zs ze edge_margin gap) := by
  induction n with
  | zero => simpa using hempty
  | succ n ih =>
    rw [place_fold_succ]
    simp only [place_window]
    have hfalse : window_overlaps_existing
        (((List.range n).foldl (place_window window_width zs ze edge_margin gap)
          w).openings)
        (edge_margin + gap + (n : ℚ) * (window_width + gap))
        (edge_margin + gap + (n : ℚ) * (window_width + gap) + window_width)
        zs ze = false := by
      rw [ih, window_overlaps_existing_eq_false]
      intro e he
      simp only [List.mem_map, List.mem_range] at he
      obtain ⟨j, hj, rfl⟩ := he
      refine Or.inl (Or.inr ?_)
      simp only [window_candidate, ge_iff_le]
      have hj1 : (j : ℚ) + 1 ≤ (n : ℚ) := by exact_mod_cast hj
      have hmul : ((j : ℚ) + 1) * (window_width + gap) ≤
          (n : ℚ) * (window_width + gap) :=
        mul_le_mul_of_nonneg_right hj1 (by linarith)
      linarith [hmul]
    rw [if_neg (by rw [hfalse]; simp)]
    rw [List.range_succ, List.map_append, List.map_cons, List.map_nil]
    simp only [WallSeg.add_opening, ih, window_candidate]

/-- Claim C3: whatever wall length, door/window parameters and requested
window count, if the openings already on a wall segment (the doors added
first) are pairwise non-overlapping, then after `_add_windows_to_wall`
the openings are still pairwise non-overlapping: no two openings'
`[x_start,x_end]×[z_start,z_end]` rectangles share interior points. -/
theorem add_windows_openings_nonoverlap (wall : WallSeg) (count : ℤ)
    (window_width window_height spacing sill_height : ℚ)
    (h : wall.openings.Pairwise (fun a b => ¬ opening_rects_overlap a b)) :
    ((add_windows_to_wall wall count window_width window_height spacing
      sill_height).openings).Pairwise
      (fun a b => ¬ opening_rects_overlap a b) := by
  simp only [add_windows_to_wall]
  split_ifs <;> first
    | exact h
    | exact place_fold_pairwise _ _ _ _ _ _ _ h

/-- Witness for `add_windows_openings_nonoverlap`: a ground-floor front
wall of length 8 with its door at `[2, 3.2]×[0, 2.1]`, then three
requested windows. -/
theorem add_windows_openings_nonoverlap_witness :
    ((add_windows_to_wall ⟨8, 3.5, [⟨2, 3.2, 0, 2.1, "door"⟩]⟩ 3 1.2 1.4 0.8
      0.9).openings).Pairwise (fun a b => ¬ opening_rects_overlap a b) :=
  add_windows_openings_nonoverlap ⟨8, 3.5, [⟨2, 3.2, 0, 2.1, "door"⟩]⟩ 3 1.2 1.4
    0.8 0.9 (List.pairwise_singleton _ _)

/-- Every candidate carries the `window` kind tag. -/
theorem mem_candidates_kind (window_width zs ze edge_margin gap : ℚ) (n : ℕ) :
    ∀ o ∈ (List.range n).map (window_candidate window_width zs ze edge_margin gap),
      o.kind = "window" := by
  intro o ho
  simp only [List.mem_map, List.mem_range] at ho
  obtain ⟨i, _, rfl⟩ := ho
  rfl

/-- The placement fold's append/sublist/kind facts packaged together. -/
theorem place_fold_append_kinds (window_width zs ze edge_margin gap : ℚ)
    (w : WallSeg) (n : ℕ) :
    ∃ ws : List Opening,
      ((List.range n).foldl (place_window window_width zs ze edge_margin gap)
        w).openings = w.openings ++ ws ∧
      ws.Sublist ((List.range n).map
        (window_candidate window_width zs ze edge_margin gap)) ∧
      ∀ o ∈ ws, o.kind = "window" := by
  obtain ⟨ws, h1, h2⟩ := place_fold_append window_width zs ze edge_margin gap w n
  exact ⟨ws, h1, h2, fun o ho => mem_candidates_kind _ _ _ _ _ _ o (h2.subset ho)⟩

/-- Claim C10: `_add_windows_to_wall` only appends new window openings —
the openings already on the segment (e.g. the ground-floor door added
first) stay as an unchanged prefix, in order, with all fields intact; the
appended suffix is a sublist of the candidate rectangles, so a candidate
window whose padded rectangle conflicts with an existing opening is
skipped entirely, never moved; every appended opening is a window. -/
theorem add_windows_frame_effect (wall : WallSeg) (count : ℤ)
    (window_width window_height spacing sill_height : ℚ) :
    ∃ ws : List Opening,
      (add_windows_to_wall wall count window_width window_height spacing
        sill_height).openings = wall.openings ++ ws ∧
      ws.Sublist (window_candidates wall count window_width window_height
        spacing sill_height) ∧
      ∀ o ∈ ws, o.kind = "window" := by
  simp only [add_windows_to_wall, window_candidates]
  split_ifs <;> first
    | exact place_fold_append_kinds _ _ _ _ _ wall _
    | exact ⟨[], by simp, List.nil_sublist _, by simp⟩

/-- The interior solver's `calc_window_positions` computes exactly the
spec formula. -/
theorem calc_window_positions_eq_spec (L : ℚ) (N : ℤ) (W S : ℚ)
    (hN : 1 ≤ N) (hW : 0 < W) :
    calc_window_positions W S L N = opening_layout_spec_positions L N W S := by
  simp only [calc_window_positions, opening_layout_spec_positions]
  rw [show S / 2 = S * 0.5 by ring]
  rw [if_neg (by omega : ¬ N ≤ 0)]
  by_cases hA : L - 2 * max 0.3 (S * 0.5) < W
  · rw [if_pos hA, if_pos hA]
  · rw [if_neg hA, if_neg hA]
    have hWpos : (0 : ℚ) < W + 0.3 := by linarith
    have hge : W + 0.3 ≤ L - 2 * max 0.3 (S * 0.5) + 0.3 := by
      linarith [not_lt.mp hA]
    have hq1 : (1 : ℚ) ≤ (L - 2 * max 0.3 (S * 0.5) + 0.3) / (W + 0.3) :=
      (one_le_div hWpos).mpr hge
    have hpy : pyInt ((L - 2 * max 0.3 (S * 0.5) + 0.3) / (W + 0.3)) =
        ⌊(L - 2 * max 0.3 (S * 0.5) + 0.3) / (W + 0.3)⌋ :=
      if_pos (le_trans zero_le_one hq1)
    have hfl : 1 ≤ ⌊(L - 2 * max 0.3 (S * 0.5) + 0.3) / (W + 0.3)⌋ :=
      Int.le_floor.mpr (by exact_mod_cast hq1)
    rw [hpy, max_eq_right hfl]
    have hn1 : 1 ≤ min N ⌊(L - 2 * max 0.3 (S * 0.5) + 0.3) / (W + 0.3)⌋ :=
      le_min hN hfl
    rw [if_neg (by omega : ¬ min N ⌊(L - 2 * max 0.3 (S * 0.5) + 0.3) / (W + 0.3)⌋ ≤ 0),
      if_pos hn1]

/-- A single candidate is always placed on a wall with no openings. -/
theorem place_fold_one (window_width zs ze edge_margin gap : ℚ)
    (w : WallSeg) (hempty : w.openings = []) :
    ((List.range 1).foldl (place_window window_width zs ze edge_margin gap)
      w).openings =
      (List.range 1).map (window_candidate window_width zs ze edge_margin gap) := by
  simp [place_window, window_overlaps_existing, hempty, window_candidate,
    WallSeg.add_opening, show List.range 1 = [0] from rfl]

/-- The builder's `_add_windows_to_wall` on a wall with no prior openings
(and a window top clear of the wall-height clamp) places exactly the spec
formula's rectangles. -/
theorem add_windows_to_wall_eq_spec (wall : WallSeg) (N : ℤ) (W wh S sill : ℚ)
    (hN : 1 ≤ N) (hW : 0 < W) (hopen : wall.openings = [])
    (hz : sill + wh ≤ wall.height - 0.2) :
    (add_windows_to_wall wall N W wh S sill).openings.map
        (fun o => (o.x_start, o.x_end)) =
      opening_layout_spec_positions wall.len N W S := by
  simp only [add_windows_to_wall, opening_layout_spec_positions]
  rw [show S / 2 = S * 0.5 by ring]
  rw [if_neg (by omega : ¬ N ≤ 0)]
  by_cases hA : wall.len - 2 * max 0.3 (S * 0.5) < W
  · rw [if_pos hA, if_pos hA, hopen]
    rfl
  · rw [if_neg hA, if_neg hA]
    have hWpos : (0 : ℚ) < W + 0.3 := by linarith
    have hge : W + 0.3 ≤ wall.len - 2 * max 0.3 (S * 0.5) + 0.3 := by
      linarith [not_lt.mp hA]
    have hq1 : (1 : ℚ) ≤ (wall.len - 2 * max 0.3 (S * 0.5) + 0.3) / (W + 0.3) :=
      (one_le_div hWpos).mpr hge
    have hpy : pyInt ((wall.len - 2 * max 0.3 (S * 0.5) + 0.3) / (W + 0.3)) =
        ⌊(wall.len - 2 * max 0.3 (S * 0.5) + 0.3) / (W + 0.3)⌋ :=
      if_pos (le_trans zero_le_one hq1)
    have hfl : 1 ≤ ⌊(wall.len - 2 * max 0.3 (S * 0.5) + 0.3) / (W + 0.3)⌋ :=
      Int.le_floor.mpr (by exact_mod_cast hq1)
    rw [hpy, max_eq_right hfl]
    have hn1 : 1 ≤ min N ⌊(wall.len - 2 * max 0.3 (S * 0.5) + 0.3) / (W + 0.3)⌋ :=
      le_min hN hfl
    rw [if_neg (by omega :
      ¬ min N ⌊(wall.len - 2 * max 0.3 (S * 0.5) + 0.3) / (W + 0.3)⌋ ≤ 0)]
    rw [if_neg (not_lt.mpr hz)]
    have hgap_eq :
        (if min N ⌊(wall.len - 2 * max 0.3 (S * 0.5) + 0.3) / (W + 0.3)⌋ = 1 then
          (wall.len - 2 * max 0.3 (S * 0.5) -
            ((min N ⌊(wall.len - 2 * max 0.3 (S * 0.5) + 0.3) / (W + 0.3)⌋ : ℤ) : ℚ) * W) / 2
        else
          (wall.len - 2 * max 0.3 (S * 0.5) -
            ((min N ⌊(wall.len - 2 * max 0.3 (S * 0.5) + 0.3) / (W + 0.3)⌋ : ℤ) : ℚ) * W) /
            (((min N ⌊(wall.len - 2 * max 0.3 (S * 0.5) + 0.3) / (W + 0.3)⌋ : ℤ) : ℚ) + 1)) =
        (wall.len - 2 * max 0.3 (S * 0.5) -
          ((min N ⌊(wall.len - 2 * max 0.3 (S * 0.5) + 0.3) / (W + 0.3)⌋ : ℤ) : ℚ) * W) /
          (((min N ⌊(wall.len - 2 * max 0.3 (S * 0.5) + 0.3) / (W + 0.3)⌋ : ℤ) : ℚ) + 1) := by
      split_ifs with h1
      · rw [h1]
        norm_num
      · rfl
    rw [hgap_eq]
    rcases eq_or_lt_of_le hn1 with heq | hlt
    · rw [← heq, show ((1 : ℤ).toNat) = 1 from rfl,
        place_fold_one _ _ _ _ _ _ hopen, List.map_map]
      rfl
    · have h2 : (2 : ℚ) ≤
          ((min N ⌊(wall.len - 2 * max 0.3 (S * 0.5) + 0.3) / (W + 0.3)⌋ : ℤ) : ℚ) := by
        exact_mod_cast hlt
      have hflq : ((min N ⌊(wall.len - 2 * max 0.3 (S * 0.5) + 0.3) / (W + 0.3)⌋ : ℤ) : ℚ) ≤
          (wall.len - 2 * max 0.3 (S * 0.5) + 0.3) / (W + 0.3) := by
        refine le_trans ?_ (Int.floor_le _)
        exact_mod_cast min_le_right N _
      have hle : ((min N ⌊(wall.len - 2 * max 0.3 (S * 0.5) + 0.3) / (W + 0.3)⌋ : ℤ) : ℚ) *
          (W + 0.3) ≤ wall.len - 2 * max 0.3 (S * 0.5) + 0.3 := by
        calc ((min N ⌊(wall.len - 2 * max 0.3 (S * 0.5) + 0.3) / (W + 0.3)⌋ : ℤ) : ℚ) *
            (W + 0.3) ≤
            (wall.len - 2 * max 0.3 (S * 0.5) + 0.3) / (W + 0.3) * (W + 0.3) :=
          mul_le_mul_of_nonneg_right hflq (le_of_lt hWpos)
          _ = wall.len - 2 * max 0.3 (S * 0.5) + 0.3 :=
            div_mul_cancel₀ _ (ne_of_gt hWpos)
      have hgap : (0.1 : ℚ) ≤ (wall.len - 2 * max 0.3 (S * 0.5) -
          ((min N ⌊(wall.len - 2 * max 0.3 (S * 0.5) + 0.3) / (W + 0.3)⌋ : ℤ) : ℚ) * W) /
          (((min N ⌊(wall.len - 2 * max 0.3 (S * 0.5) + 0.3) / (W + 0.3)⌋ : ℤ) : ℚ) + 1) := by
        rw [le_div_iff₀ (by linarith : (0 : ℚ) <
          ((min N ⌊(wall.len - 2 * max 0.3 (S * 0.5) + 0.3) / (W + 0.3)⌋ : ℤ) : ℚ) + 1)]
        nlinarith [hle, h2]
      rw [place_fold_no_skip _ _ _ _ _ hW hgap wall hopen _, List.map_map]
      rfl

/-- Claim C2: for wall length `L`, requested count `N ≥ 1`, opening width
`W > 0` and spacing `S ≥ 0`, the opening layout follows the spec formula
(`edge_margin = max(0.3, S/2)`, `available = L − 2·edge_margin`, no
openings when `available < W`, otherwise exactly
`min(N, ⌊(available+0.3)/(W+0.3)⌋)` openings with
`gap = (available − n·W)/(n+1)` and opening `i` spanning
`[edge_margin+gap+i·(W+gap), +W]`), and it is implemented identically in
the interior solver's `calc_window_positions` and the wall-mesh builder's
`_add_windows_to_wall` window placement (on a wall with no prior
openings and the window top clear of the height clamp). -/
theorem opening_layout_formula (L : ℚ) (N : ℤ) (W S : ℚ)
    (hN : 1 ≤ N) (hW : 0 < W) (_hS : 0 ≤ S) :
    (L - 2 * max 0.3 (S / 2) < W → opening_layout_spec_positions L N W S = []) ∧
    (¬ (L - 2 * max 0.3 (S / 2) < W) →
      (opening_layout_spec_positions L N W S).length =
        (min N ⌊(L - 2 * max 0.3 (S / 2) + 0.3) / (W + 0.3)⌋).toNat) ∧
    calc_window_positions W S L N = opening_layout_spec_positions L N W S ∧
    (∀ (wall : WallSeg) (wh sill : ℚ), wall.openings = [] → wall.len = L →
      sill + wh ≤ wall.height - 0.2 →
      (add_windows_to_wall wall N W wh S sill).openings.map
        (fun o => (o.x_start, o.x_end)) =
        opening_layout_spec_positions L N W S) := by
  refine ⟨?_, ?_, calc_window_positions_eq_spec L N W S hN hW, ?_⟩
  · intro h
    simp only [opening_layout_spec_positions]
    rw [if_pos h]
  · intro h
    simp only [opening_layout_spec_positions]
    rw [if_neg h]
    simp
  · intro wall wh sill h1 h2 h3
    subst h2
    exact add_windows_to_wall_eq_spec wall N W wh S sill hN hW h1 h3

/-- Witness for `opening_layout_formula`: both implementations yield the
spec positions for a length-8 wall, three windows of width 1.2, spacing
0.8. -/
theorem opening_layout_formula_witness :
    calc_window_positions 1.2 0.8 8 3 = opening_layout_spec_positions 8 3 1.2 0.8 :=
  (opening_layout_formula 8 3 1.2 0.8 (by norm_num) (by norm_num)
    (by norm_num)).2.2.1
